import Mathlib

/-!
Shallow embedding of the Aura API backend (NestJS + Prisma + Postgres).

The database is a record of row lists mirroring `prisma/schema.prisma`.
Each service method from `src/` becomes a pure function from inputs and
the current database state to a result (`Except ApiError _`) and the new
state.  External SaaS calls (Twilio, Cloudinary, Gemini) are modelled by
passing their outcome as an explicit argument.  Timestamps are integers
(milliseconds since the epoch, as in JavaScript `Date.now()`), and the
JavaScript `number` values carrying AI confidence scores are embedded as
rationals.
-/

namespace AuraApi

/-- Row of the `users` table (`model User` in `prisma/schema.prisma`).
`phoneNumber` is declared `@unique` in the schema. -/
structure UserRow where
  id : String
  firstName : String
  lastName : String
  phoneNumber : String
  birthday : Int
  isVerified : Bool
  profilePictureUrl : Option String
  profilePublicId : Option String
  deriving Repr, DecidableEq

/-- Row of the `otps` table (`model OTP`). -/
structure OtpRow where
  id : String
  phoneNumber : String
  code : String
  expiresAt : Int
  isUsed : Bool
  createdAt : Int
  userId : Option String
  deriving Repr, DecidableEq

/-- Row of the `images` table (`model Image`). -/
structure ImageRow where
  id : String
  originalUrl : String
  publicId : String
  fileName : String
  fileSize : Nat
  mimeType : String
  width : Option Nat
  height : Option Nat
  isProcessed : Bool
  processingStatus : String
  userId : String
  createdAt : Int
  deriving Repr, DecidableEq

/-- Row of the `auras` table (`model Aura`).  `imageId` is declared
`@unique` in the schema (at most one aura per image); `likes` and
`shares` are integer counters defaulting to 0. -/
structure AuraRow where
  id : String
  title : String
  description : String
  mood : Option String
  colors : List String
  keywords : List String
  confidence : Option Rat
  likes : Int
  shares : Int
  imageId : String
  userId : String
  deriving Repr, DecidableEq

/-- Row of the `follows` table (`model Follow`).  The pair
`(followerId, followingId)` is declared `@@unique` in the schema. -/
structure FollowRow where
  id : String
  followerId : String
  followingId : String
  createdAt : Int
  deriving Repr, DecidableEq

/-- The relational state: one list per table of `schema.prisma`
(the unused `LeaderboardEntry` table is never read or written by the
services and is omitted). -/
structure DB where
  users : List UserRow
  otps : List OtpRow
  images : List ImageRow
  auras : List AuraRow
  follows : List FollowRow
  deriving Repr, DecidableEq

/-- The empty database. -/
def dbEmpty : DB := ⟨[], [], [], [], []⟩

/-- HTTP-mapped exceptions thrown by the services
(`BadRequestException`, `UnauthorizedException`, `NotFoundException`,
`ConflictException` from `@nestjs/common`). -/
inductive ApiError where
  | badRequest (msg : String)
  | unauthorized (msg : String)
  | notFound (msg : String)
  | conflict (msg : String)
  deriving Repr, DecidableEq

/-! ## Constraint-checking storage layer

Postgres enforces the `@id`, `@unique` and `@@unique` declarations of
`schema.prisma` on every insert; a violating `create` makes Prisma throw.
These functions embed that schema-level enforcement: the services above
them contain no code re-checking these invariants on insert. -/

/-- Insert into `users`: the primary key and the `@unique phoneNumber`
column are checked by the database. -/
def dbCreateUser (db : DB) (u : UserRow) : Except String DB :=
  if db.users.any (fun v => v.id == u.id || v.phoneNumber == u.phoneNumber) then
    .error "Unique constraint failed on users"
  else
    .ok { db with users := db.users ++ [u] }

/-- Insert into `otps`: only the primary key is constrained. -/
def dbCreateOtp (db : DB) (r : OtpRow) : Except String DB :=
  if db.otps.any (fun v => v.id == r.id) then
    .error "Unique constraint failed on otps"
  else
    .ok { db with otps := db.otps ++ [r] }

/-- Insert into `images`: only the primary key is constrained. -/
def dbCreateImage (db : DB) (r : ImageRow) : Except String DB :=
  if db.images.any (fun v => v.id == r.id) then
    .error "Unique constraint failed on images"
  else
    .ok { db with images := db.images ++ [r] }

/-- Insert into `auras`: the primary key and the `@unique imageId`
column are checked by the database. -/
def dbCreateAura (db : DB) (r : AuraRow) : Except String DB :=
  if db.auras.any (fun v => v.id == r.id || v.imageId == r.imageId) then
    .error "Unique constraint failed on auras"
  else
    .ok { db with auras := db.auras ++ [r] }

/-- Insert into `follows`: the primary key and the
`@@unique([followerId, followingId])` pair are checked by the database. -/
def dbCreateFollow (db : DB) (r : FollowRow) : Except String DB :=
  if db.follows.any
      (fun v => v.id == r.id || (v.followerId == r.followerId && v.followingId == r.followingId)) then
    .error "Unique constraint failed on follows"
  else
    .ok { db with follows := db.follows ++ [r] }

/-! ## Auth service (`src/auth/auth.service.ts`) -/

/-- The Twilio client of `AuthService`: either `null` (credentials absent
or invalid at construction) or configured, in which case the outcome of
`messages.create` for the current request is the given `Except`. -/
inductive TwilioClient where
  | notConfigured
  | configured (sendResult : Except String Unit)

/-- Successful response of `sendOtp`: the fixed message, plus the OTP
code itself when `nodeEnv` is `development`. -/
structure SendOtpOk where
  message : String
  code : Option String
  deriving Repr, DecidableEq

/-- The OTP row persisted by `sendOtp` (`auth.service.ts` lines 41-51):
`expiresAt` is 10 minutes after issuance. -/
def sendOtpRow (phoneNumber code : String) (now : Int) (freshId : String) : OtpRow :=
  { id := freshId
    phoneNumber := phoneNumber
    code := code
    expiresAt := now + 10 * 60 * 1000
    isUsed := false
    createdAt := now
    userId := none }

/-- Embedding of `AuthService.sendOtp`.  The random 6-digit `code` and the
fresh cuid are inputs; `tw` is the Twilio client state and the outcome of
the SMS send.  The OTP row is persisted before any SMS is attempted; a
send failure is swallowed unless `nodeEnv` is `production`. -/
def sendOtp (phoneNumber code : String) (now : Int) (freshId : String)
    (tw : TwilioClient) (nodeEnv : String) (db : DB) : Except ApiError SendOtpOk × DB :=
  match dbCreateOtp db (sendOtpRow phoneNumber code now freshId) with
  | .error e => (.error (.badRequest e), db)
  | .ok db1 =>
    let success : SendOtpOk :=
      { message := "OTP sent successfully"
        code := if nodeEnv == "development" then some code else none }
    match tw with
    | .notConfigured => (.ok success, db1)
    | .configured (.ok _) => (.ok success, db1)
    | .configured (.error e) =>
      if nodeEnv == "production" then
        (.error (.badRequest ("Failed to send OTP: " ++ e)), db1)
      else
        (.ok success, db1)

/-- The `where` filter of the `findFirst` in `verifyOtp`: same phone
number and code, not yet used, and `expiresAt` strictly in the future. -/
def otpValid (phoneNumber code : String) (now : Int) (r : OtpRow) : Bool :=
  r.phoneNumber == phoneNumber && r.code == code && !r.isUsed && now < r.expiresAt

/-- The alphanumeric seed used for DiceBear avatars
(`phoneNumber.replace` of every non-alphanumeric character). -/
def dicebearSeed (phoneNumber : String) : String :=
  String.mk (phoneNumber.toList.filter Char.isAlphanum)

/-- The DiceBear avatar URL generated for users without a profile picture. -/
def dicebearUrl (phoneNumber : String) : String :=
  "https://api.dicebear.com/9.x/fun-emoji/svg?seed=" ++ dicebearSeed phoneNumber ++
    "&size=400&radius=50&backgroundColor=b6e3f4,c0aede,d1d4f9,ffd5dc,ffdfbf"

/-- Successful response of `verifyOtp`, reduced to the claim-relevant
fields: whether the caller must still register. -/
structure VerifyOtpOk where
  isNewUser : Bool
  phoneNumber : String
  deriving Repr, DecidableEq

/-- Embedding of `AuthService.verifyOtp`: find a valid OTP (else throw
`UnauthorizedException`), mark it used, then look the user up by phone
number; an existing user without a profile picture gets a DiceBear
avatar written back. -/
def verifyOtp (phoneNumber code : String) (now : Int) (db : DB) :
    Except ApiError VerifyOtpOk × DB :=
  match db.otps.find? (otpValid phoneNumber code now) with
  | none => (.error (.unauthorized "Invalid or expired OTP"), db)
  | some otp =>
    let db1 : DB :=
      { db with otps := db.otps.map (fun r => if r.id == otp.id then { r with isUsed := true } else r) }
    match db1.users.find? (fun u => u.phoneNumber == phoneNumber) with
    | some u =>
      let db2 : DB :=
        if u.profilePictureUrl.isNone then
          { db1 with users := db1.users.map (fun v =>
              if v.id == u.id then { v with profilePictureUrl := some (dicebearUrl phoneNumber) } else v) }
        else db1
      (.ok { isNewUser := false, phoneNumber := phoneNumber }, db2)
    | none => (.ok { isNewUser := true, phoneNumber := phoneNumber }, db1)

/-- Input of `AuthService.register` (the `RegisterUserDto`). -/
structure RegisterInput where
  phoneNumber : String
  firstName : String
  lastName : String
  birthday : Int
  deriving Repr, DecidableEq

/-- Embedding of `AuthService.register`: reject an existing phone number
with `ConflictException`, otherwise create the user.  `picResult` is the
Cloudinary profile-picture upload outcome (`none` when no file was sent);
an upload failure falls back to the DiceBear avatar. -/
def register (inp : RegisterInput) (picResult : Option (Except String (String × String)))
    (freshId : String) (db : DB) : Except ApiError UserRow × DB :=
  if db.users.any (fun u => u.phoneNumber == inp.phoneNumber) then
    (.error (.conflict "User already exists"), db)
  else
    let uploaded : Option (String × String) :=
      match picResult with
      | some (.ok p) => some p
      | some (.error _) => none
      | none => none
    let user : UserRow :=
      { id := freshId
        firstName := inp.firstName
        lastName := inp.lastName
        phoneNumber := inp.phoneNumber
        birthday := inp.birthday
        isVerified := true
        profilePictureUrl := some ((uploaded.map Prod.fst).getD (dicebearUrl inp.phoneNumber))
        profilePublicId := uploaded.map Prod.snd }
    match dbCreateUser db user with
    | .error e => (.error (.badRequest e), db)
    | .ok db1 => (.ok user, db1)

/-! ## OTP cleanup (`src/auth/otp-cleanup.service.ts`) -/

/-- Counts returned by `performCleanup`. -/
structure CleanupResult where
  verifiedOtpsDeleted : Nat
  expiredUnusedOtpsDeleted : Nat
  totalDeleted : Nat
  deriving Repr, DecidableEq

/-- Embedding of `OtpCleanupService.performCleanup`: first `deleteMany`
of every used OTP, then `deleteMany` of every unused OTP created more
than 30 minutes before the call; each `deleteMany` reports its count. -/
def performCleanup (now : Int) (db : DB) : CleanupResult × DB :=
  let thirtyMinutesAgo := now - 30 * 60 * 1000
  let verifiedCount := db.otps.countP (fun r => r.isUsed)
  let rest1 := db.otps.filter (fun r => !r.isUsed)
  let expiredCount := rest1.countP (fun r => !r.isUsed && r.createdAt < thirtyMinutesAgo)
  let rest2 := rest1.filter (fun r => !(!r.isUsed && r.createdAt < thirtyMinutesAgo))
  ({ verifiedOtpsDeleted := verifiedCount
     expiredUnusedOtpsDeleted := expiredCount
     totalDeleted := verifiedCount + expiredCount },
   { db with otps := rest2 })

/-- Embedding of the cron-scheduled `OtpCleanupService.cleanupOtps`: the
same two `deleteMany` calls, with the counts only logged. -/
def cleanupOtps (now : Int) (db : DB) : DB :=
  let thirtyMinutesAgo := now - 30 * 60 * 1000
  let rest1 := db.otps.filter (fun r => !r.isUsed)
  let rest2 := rest1.filter (fun r => !(!r.isUsed && r.createdAt < thirtyMinutesAgo))
  { db with otps := rest2 }

/-! ## Social service (`src/social/social.service.ts`) -/

/-- Response of `followUser` / `unfollowUser`. -/
structure FollowOk where
  message : String
  following : Bool
  deriving Repr, DecidableEq

/-- Embedding of `SocialService.followUser` (lines 9-49): self-follow is
a `BadRequestException`, a missing target a `NotFoundException`, an
existing relation a `ConflictException`; otherwise the follow row is
created. -/
def followUser (followerId followingId : String) (now : Int) (freshId : String) (db : DB) :
    Except ApiError FollowOk × DB :=
  if followerId == followingId then
    (.error (.badRequest "You cannot follow yourself"), db)
  else
    match db.users.find? (fun u => u.id == followingId) with
    | none => (.error (.notFound "User not found"), db)
    | some _ =>
      match db.follows.find? (fun f => f.followerId == followerId && f.followingId == followingId) with
      | some _ => (.error (.conflict "Already following this user"), db)
      | none =>
        match dbCreateFollow db
            { id := freshId, followerId := followerId, followingId := followingId, createdAt := now } with
        | .error e => (.error (.badRequest e), db)
        | .ok db1 => (.ok { message := "User followed successfully", following := true }, db1)

/-- Embedding of `SocialService.unfollowUser` (lines 51-78): a missing
relation is a `NotFoundException`, otherwise the unique row with this
`(followerId, followingId)` key is deleted. -/
def unfollowUser (followerId followingId : String) (db : DB) :
    Except ApiError FollowOk × DB :=
  match db.follows.find? (fun f => f.followerId == followerId && f.followingId == followingId) with
  | none => (.error (.notFound "You are not following this user"), db)
  | some _ =>
    (.ok { message := "User unfollowed successfully", following := false },
     { db with follows :=
        db.follows.filter (fun f => !(f.followerId == followerId && f.followingId == followingId)) })

/-- Response of `likeAura` / `unlikeAura`. -/
structure LikeOk where
  message : String
  liked : Bool
  totalLikes : Int
  deriving Repr, DecidableEq

/-- Embedding of `SocialService.likeAura` (lines 81-107): no per-user
like tracking exists; the `likes` counter of the aura is incremented by 1
unconditionally.  The `userId` argument is accepted and ignored, as in
the source. -/
def likeAura (userId auraId : String) (db : DB) : Except ApiError LikeOk × DB :=
  match db.auras.find? (fun a => a.id == auraId) with
  | none => (.error (.notFound "Aura not found"), db)
  | some aura =>
    (.ok { message := "Aura liked successfully", liked := true, totalLikes := aura.likes + 1 },
     { db with auras := db.auras.map (fun a =>
        if a.id == auraId then { a with likes := a.likes + 1 } else a) })

/-- Embedding of `SocialService.unlikeAura` (lines 109-134): the counter
is decremented by `aura.likes > 0 ? 1 : 0`, so it never drops below 0. -/
def unlikeAura (userId auraId : String) (db : DB) : Except ApiError LikeOk × DB :=
  match db.auras.find? (fun a => a.id == auraId) with
  | none => (.error (.notFound "Aura not found"), db)
  | some aura =>
    let dec : Int := if 0 < aura.likes then 1 else 0
    (.ok { message := "Aura unliked successfully", liked := false, totalLikes := aura.likes - dec },
     { db with auras := db.auras.map (fun a =>
        if a.id == auraId then { a with likes := a.likes - dec } else a) })

/-- Embedding of `SocialService.shareAura` (lines 136-160). -/
def shareAura (userId auraId : String) (db : DB) : Except ApiError Int × DB :=
  match db.auras.find? (fun a => a.id == auraId) with
  | none => (.error (.notFound "Aura not found"), db)
  | some aura =>
    (.ok (aura.shares + 1),
     { db with auras := db.auras.map (fun a =>
        if a.id == auraId then { a with shares := a.shares + 1 } else a) })

/-! ## Images service (`src/images/images.service.ts`) -/

/-- The parts of `Express.Multer.File` read by `uploadImage`. -/
structure UploadFile where
  originalname : String
  mimetype : String
  size : Nat
  buffer : List Nat
  deriving Repr, DecidableEq

/-- Upload configuration (`upload.allowedMimeTypes`, `upload.maxFileSize`). -/
structure UploadConfig where
  allowedMimeTypes : List String
  maxFileSize : Nat
  deriving Repr, DecidableEq

/-- Result of `GeminiService.generateAuraFromBuffer` on success. -/
structure AiAura where
  title : String
  description : String
  mood : String
  keywords : List String
  confidence : Rat
  deriving Repr, DecidableEq

/-- Result of `CloudinaryService.uploadImage` on success. -/
structure CloudUpload where
  originalUrl : String
  publicId : String
  width : Nat
  height : Nat
  deriving Repr, DecidableEq

/-- The four awaited steps inside the `try` block of
`ImagesService.uploadImage`, in source order. -/
inductive UploadStep where
  | geminiAnalyze
  | cloudinaryUpload
  | createImageRow
  | createAuraRow
  deriving Repr, DecidableEq

/-- Whether `sub` occurs as a substring of `s` (the `String.includes`
calls of the catch block). -/
def strContains (s sub : String) : Bool := decide (2 ≤ (s.splitOn sub).length)

/-- The catch block of `uploadImage` (lines 131-140): every failure is
rethrown as a `BadRequestException`, with a message depending on whether
the original message mentions Gemini or AI. -/
def uploadCatch (msg : String) : ApiError :=
  if strContains msg "Gemini" || strContains msg "AI" then
    .badRequest ("AI aura analysis failed: " ++ msg)
  else
    .badRequest ("Failed to process image: " ++ msg)

/-- Simplified response of `uploadImage` (lines 110-130). -/
structure UploadResponse where
  id : String
  originalUrl : String
  publicId : String
  auraId : String
  auraTitle : String
  auraLikes : Int
  deriving Repr, DecidableEq

/-- Embedding of `ImagesService.uploadImage` (lines 16-141).  After DTO
validation, the pipeline is a linear sequence of four awaited calls:
Gemini analysis of the raw buffer, Cloudinary upload, `image.create`,
`aura.create`.  The outcomes of the two external calls are the arguments
`gemini` and `cloud`; the returned list records which of the four steps
were performed, in order.  There is no transaction: a failure simply
stops the sequence, keeping earlier writes. -/
def uploadImage (cfg : UploadConfig) (file : Option UploadFile) (userId : String)
    (gemini : Except String AiAura) (cloud : Except String CloudUpload)
    (freshImageId freshAuraId : String) (now : Int) (db : DB) :
    (Except ApiError UploadResponse × DB) × List UploadStep :=
  match file with
  | none => ((.error (.badRequest "No file provided"), db), [])
  | some f =>
    if !(cfg.allowedMimeTypes.contains f.mimetype) then
      ((.error (.badRequest "Invalid file type. Only JPEG, PNG, WebP are allowed"), db), [])
    else if cfg.maxFileSize < f.size then
      ((.error (.badRequest "File size exceeds the maximum"), db), [])
    else
      match gemini with
      | .error e => ((.error (uploadCatch e), db), [.geminiAnalyze])
      | .ok aiAura =>
        match cloud with
        | .error e => ((.error (uploadCatch e), db), [.geminiAnalyze, .cloudinaryUpload])
        | .ok up =>
          let imageRow : ImageRow :=
            { id := freshImageId
              originalUrl := up.originalUrl
              publicId := up.publicId
              fileName := f.originalname
              fileSize := f.size
              mimeType := f.mimetype
              width := some up.width
              height := some up.height
              isProcessed := true
              processingStatus := "completed"
              userId := userId
              createdAt := now }
          match dbCreateImage db imageRow with
          | .error e =>
            ((.error (uploadCatch e), db), [.geminiAnalyze, .cloudinaryUpload, .createImageRow])
          | .ok db1 =>
            let auraRow : AuraRow :=
              { id := freshAuraId
                title := aiAura.title
                description := aiAura.description
                mood := some aiAura.mood
                colors := []
                keywords := aiAura.keywords
                confidence := some aiAura.confidence
                likes := 0
                shares := 0
                imageId := freshImageId
                userId := userId }
            match dbCreateAura db1 auraRow with
            | .error e =>
              ((.error (uploadCatch e), db1),
               [.geminiAnalyze, .cloudinaryUpload, .createImageRow, .createAuraRow])
            | .ok db2 =>
              ((.ok { id := freshImageId
                      originalUrl := up.originalUrl
                      publicId := up.publicId
                      auraId := freshAuraId
                      auraTitle := aiAura.title
                      auraLikes := 0 }, db2),
               [.geminiAnalyze, .cloudinaryUpload, .createImageRow, .createAuraRow])

/-- Embedding of `ImagesService.deleteImage` (lines 199-218): ownership
check, Cloudinary delete (outcome `cloudDel`), then the database delete,
which cascades to the aura of the image. -/
def deleteImage (imageId userId : String) (cloudDel : Except String Unit) (db : DB) :
    Except ApiError Unit × DB :=
  match db.images.find? (fun i => i.id == imageId && i.userId == userId) with
  | none => (.error (.notFound "Image not found"), db)
  | some _ =>
    match cloudDel with
    | .error e => (.error (.badRequest e), db)
    | .ok _ =>
      (.ok (),
       { db with
          images := db.images.filter (fun i => !(i.id == imageId))
          auras := db.auras.filter (fun a => !(a.imageId == imageId)) })

/-! ## Gemini image fetch helper (`src/gemini/gemini.service.ts`, lines 165-211) -/

/-- Outcome of one `fetch(imageUrl, ...)` attempt: an HTTP response with
a body, a non-ok HTTP response, or a thrown network error. -/
inductive FetchOutcome where
  | ok (buffer : List Nat)
  | httpError (status : Nat) (statusText : String)
  | netError (msg : String)

/-- Observable events of `fetchImageAsBase64`: one per fetch attempt and
one per `sleep(ms)` call. -/
inductive FetchEvent where
  | attemptNo (n : Nat)
  | sleep (ms : Nat)
  deriving Repr, DecidableEq

/-- The standard base64 alphabet. -/
def base64Chars : List Char :=
  "ABCDEFGHIJKLMNOPQRSTUVWXYZabcdefghijklmnopqrstuvwxyz0123456789+/".toList

/-- Character of the base64 alphabet at a sextet value. -/
def b64Char (n : Nat) : Char := base64Chars.getD n '?'

/-- Base64 encoding of a byte list (`buffer.toString of base64`). -/
def base64Encode : List Nat → String
  | [] => ""
  | [b0] =>
    String.mk [b64Char (b0 / 4), b64Char (b0 % 4 * 16), '=', '=']
  | [b0, b1] =>
    String.mk [b64Char (b0 / 4), b64Char (b0 % 4 * 16 + b1 / 16), b64Char (b1 % 16 * 4), '=']
  | b0 :: b1 :: b2 :: rest =>
    String.mk [b64Char (b0 / 4), b64Char (b0 % 4 * 16 + b1 / 16),
               b64Char (b1 % 16 * 4 + b2 / 64), b64Char (b2 % 64)] ++ base64Encode rest

/-- The final error message after all retries. -/
def fetchFailMsg (m : String) : String :=
  "Failed to fetch image for analysis after 3 attempts: " ++ m

/-- Message of the `Error` thrown for a non-ok response on the last
attempt. -/
def fetchHttpMsg (status : Nat) (statusText : String) : String :=
  "Failed to fetch image: " ++ statusText ++ " (" ++ toString status ++ ")"

/-- One iteration of the `for (attempt = 1; attempt <= maxRetries)` loop
of `fetchImageAsBase64`, with the remaining iterations as structural
fuel (`0 < fuel` is exactly `attempt < maxRetries`).  A non-ok response
or a thrown error sleeps 2000 ms and retries while attempts remain; a
response body shorter than 100 bytes is treated as a thrown error. -/
def fetchGo (outcomes : Nat → FetchOutcome) (attempt : Nat) :
    Nat → Except String String × List FetchEvent
  | 0 => (.error "loop exhausted", [])
  | fuel + 1 =>
    let ev := FetchEvent.attemptNo attempt
    let retry : String → Except String String × List FetchEvent := fun finalMsg =>
      if 0 < fuel then
        let next := fetchGo outcomes (attempt + 1) fuel
        (next.1, ev :: .sleep 2000 :: next.2)
      else
        (.error (fetchFailMsg finalMsg), [ev])
    match outcomes attempt with
    | .ok buf =>
      if buf.length < 100 then
        retry "Received invalid or empty image data"
      else
        (.ok (base64Encode buf), [ev])
    | .httpError status statusText => retry (fetchHttpMsg status statusText)
    | .netError m => retry m

/-- Embedding of `GeminiService.fetchImageAsBase64`: `maxRetries = 3`
attempts starting at attempt 1. -/
def fetchImageAsBase64 (outcomes : Nat → FetchOutcome) :
    Except String String × List FetchEvent :=
  fetchGo outcomes 1 3

/-- Whether a fetch attempt outcome succeeds (ok response with a body of
at least 100 bytes, the validation of the source). -/
def fetchSuccess : FetchOutcome → Bool
  | .ok buf => decide (100 ≤ buf.length)
  | _ => false

/-- Test for an attempt event. -/
def FetchEvent.isAttempt : FetchEvent → Bool
  | .attemptNo _ => true
  | _ => false

/-- Test for a sleep event. -/
def FetchEvent.isSleep : FetchEvent → Bool
  | .sleep _ => true
  | _ => false

/-! ## Leaderboard (`src/social/social.service.ts`, lines 549-662) -/

/-- One user as fetched by the `findMany` of `getLeaderboard`: profile
fields, the confidence of each of the images (through the optional
aura), and the follower count. -/
structure LbUserFetched where
  id : String
  firstName : String
  lastName : String
  profilePictureUrl : Option String
  images : List (Option Rat)
  followersCount : Nat
  deriving DecidableEq

/-- JavaScript `Math.round`: round half towards positive infinity. -/
def jsRound (q : Rat) : Int := ⌊q + 1 / 2⌋

/-- The `Math.round(x * 100) / 100` two-decimal rounding of the stats. -/
def round2 (q : Rat) : Rat := (jsRound (q * 100) : Rat) / 100

/-- Computed stats of one leaderboard entry. -/
structure LbStats where
  totalScans : Nat
  totalConfidence : Rat
  averageConfidence : Rat
  followers : Nat
  deriving DecidableEq

/-- One leaderboard entry before ranking. -/
structure LbEntry where
  user : LbUserFetched
  stats : LbStats
  deriving DecidableEq

/-- The `.map(user => ...)` stage of `getLeaderboard`: total scans,
total confidence (`confidence || 0` summed by `reduce`), average
confidence, both rounded to two decimals. -/
def toEntry (u : LbUserFetched) : LbEntry :=
  let totalScans := u.images.length
  let totalConfidence := u.images.foldl (fun sum oc => sum + oc.getD 0) (0 : Rat)
  let averageConfidence := if 0 < totalScans then totalConfidence / totalScans else 0
  { user := u
    stats :=
      { totalScans := totalScans
        totalConfidence := round2 totalConfidence
        averageConfidence := round2 averageConfidence
        followers := u.followersCount } }

/-- The comparator of the `.sort` stage as a boolean `a may precede b`
relation: total confidence descending, then average confidence
descending, then total scans descending.  `Array.prototype.sort` is
stable, so the stage is the stable sort by this relation. -/
def lbLE (a b : LbEntry) : Bool :=
  if a.stats.totalConfidence = b.stats.totalConfidence then
    if a.stats.averageConfidence = b.stats.averageConfidence then
      decide (b.stats.totalScans ≤ a.stats.totalScans)
    else
      decide (b.stats.averageConfidence < a.stats.averageConfidence)
  else
    decide (b.stats.totalConfidence < a.stats.totalConfidence)

/-- The `.filter` stage: only users with at least one scan are ranked. -/
def lbEntries (users : List LbUserFetched) : List LbEntry :=
  (users.map toEntry).filter (fun e => decide (0 < e.stats.totalScans))

/-- The ranked leaderboard: map, filter, stable sort, then
`rank := index + 1`. -/
def rankedUsers (users : List LbUserFetched) : List (Nat × LbEntry) :=
  (((lbEntries users).mergeSort lbLE).enum).map (fun p => (p.1 + 1, p.2))

/-- The `rankedUsers.slice(0, 10)` stage. -/
def topTen (users : List LbUserFetched) : List (Nat × LbEntry) :=
  (rankedUsers users).take 10

/-- Equality on the three sort keys (the tie situation of the
comparator). -/
def lbSameKeys (a b : LbEntry) : Prop :=
  a.stats.totalConfidence = b.stats.totalConfidence ∧
  a.stats.averageConfidence = b.stats.averageConfidence ∧
  a.stats.totalScans = b.stats.totalScans

/-- The descending lexicographic order on the three sort keys, as a
proposition: how consecutive ranked entries relate. -/
def lbKeyGE (a b : LbEntry) : Prop :=
  b.stats.totalConfidence < a.stats.totalConfidence ∨
  (a.stats.totalConfidence = b.stats.totalConfidence ∧
    (b.stats.averageConfidence < a.stats.averageConfidence ∨
      (a.stats.averageConfidence = b.stats.averageConfidence ∧
        b.stats.totalScans ≤ a.stats.totalScans)))

/-- Full behaviour of `fetchGo outcomes attempt fuel`: attempt count is
bounded by the fuel, consecutive attempts are separated by exactly one
2000 ms sleep, a success returns the base64 encoding of the body of some
successful attempt, and an error means every attempt in range failed. -/
def FetchSpec (outcomes : Nat → FetchOutcome) (fuel attempt : Nat)
    (r : Except String String × List FetchEvent) : Prop :=
  r.2.countP FetchEvent.isAttempt ≤ fuel ∧
  (0 < fuel → 1 ≤ r.2.countP FetchEvent.isAttempt) ∧
  r.2.countP FetchEvent.isSleep = r.2.countP FetchEvent.isAttempt - 1 ∧
  (∀ n, FetchEvent.sleep n ∈ r.2 → n = 2000) ∧
  (∀ s, r.1 = .ok s → ∃ i, attempt ≤ i ∧ i < attempt + fuel ∧
    ∃ buf, outcomes i = .ok buf ∧ 100 ≤ buf.length ∧ s = base64Encode buf) ∧
  (∀ e, r.1 = .error e → r.2.countP FetchEvent.isAttempt = fuel ∧
    ∀ i, attempt ≤ i → i < attempt + fuel → fetchSuccess (outcomes i) = false)

/-! ## Concrete fixtures used to instantiate the theorems -/

/-- A sample user row. -/
def sampleUserB : UserRow :=
  { id := "B", firstName := "Bea", lastName := "Bell", phoneNumber := "+15550101",
    birthday := 0, isVerified := true, profilePictureUrl := some "http://pic", profilePublicId := none }

/-- A database containing only `sampleUserB`. -/
def sampleDbB : DB := { dbEmpty with users := [sampleUserB] }

/-- A sample registration input. -/
def sampleRegister : RegisterInput :=
  { phoneNumber := "+15550100", firstName := "Ada", lastName := "Lane", birthday := 0 }

/-- A sample upload configuration. -/
def sampleCfg : UploadConfig := { allowedMimeTypes := ["image/jpeg", "image/png"], maxFileSize := 1000 }

/-- A sample uploaded file. -/
def sampleFile : UploadFile :=
  { originalname := "a.jpg", mimetype := "image/jpeg", size := 10, buffer := [1, 2, 3] }

/-- A sample Gemini analysis result. -/
def sampleAi : AiAura :=
  { title := "Chill Vibes Only", description := "d", mood := "Chill", keywords := ["k"],
    confidence := 1 }

/-- A sample Cloudinary upload result. -/
def sampleCloud : CloudUpload :=
  { originalUrl := "http://img", publicId := "p1", width := 10, height := 10 }

/-- Two valid OTP rows sharing phone number and code. -/
def sampleOtpA : OtpRow :=
  { id := "o1", phoneNumber := "+15550100", code := "123456", expiresAt := 1000,
    isUsed := false, createdAt := 0, userId := none }

/-- Second OTP row with the same phone number and code as `sampleOtpA`. -/
def sampleOtpB : OtpRow :=
  { id := "o2", phoneNumber := "+15550100", code := "123456", expiresAt := 1000,
    isUsed := false, createdAt := 0, userId := none }

/-- A second sample registration input with a distinct phone number. -/
def sampleRegister2 : RegisterInput :=
  { phoneNumber := "+15550102", firstName := "Bea", lastName := "Bell", birthday := 0 }

/-- A sample aura row with one like. -/
def sampleAura : AuraRow :=
  { id := "a1", title := "T", description := "D", mood := some "Chill", colors := [],
    keywords := [], confidence := none, likes := 1, shares := 0, imageId := "i1",
    userId := "u1" }

/-- A database containing only `sampleAura`. -/
def sampleDbAura : DB := { dbEmpty with auras := [sampleAura] }

/-- An always-failing sequence of fetch outcomes. -/
def sampleOutcomesFail : Nat → FetchOutcome := fun _ => .httpError 404 "Not Found"

/-- A sample fetched leaderboard user with one image of confidence 1. -/
def sampleLbUser : LbUserFetched :=
  { id := "u1", firstName := "Ada", lastName := "Lane", profilePictureUrl := none,
    images := [some 1], followersCount := 0 }

/-! ## Reachable database states

`Reach db` holds when `db` arises from the empty database through the
write operations of the services.  External-call outcomes, fresh ids and
timestamps are universally quantified. -/

/-- Database states reachable through the services. -/
inductive Reach : DB → Prop where
  | empty : Reach dbEmpty
  | stepSendOtp (phone code : String) (now : Int) (freshId : String) (tw : TwilioClient)
      (env : String) {db : DB} : Reach db → Reach (sendOtp phone code now freshId tw env db).2
  | stepVerifyOtp (phone code : String) (now : Int) {db : DB} :
      Reach db → Reach (verifyOtp phone code now db).2
  | stepRegister (inp : RegisterInput) (pic : Option (Except String (String × String)))
      (freshId : String) {db : DB} : Reach db → Reach (register inp pic freshId db).2
  | stepFollow (followerId followingId : String) (now : Int) (freshId : String) {db : DB} :
      Reach db → Reach (followUser followerId followingId now freshId db).2
  | stepUnfollow (followerId followingId : String) {db : DB} :
      Reach db → Reach (unfollowUser followerId followingId db).2
  | stepLike (userId auraId : String) {db : DB} : Reach db → Reach (likeAura userId auraId db).2
  | stepUnlike (userId auraId : String) {db : DB} :
      Reach db → Reach (unlikeAura userId auraId db).2
  | stepShare (userId auraId : String) {db : DB} : Reach db → Reach (shareAura userId auraId db).2
  | stepUpload (cfg : UploadConfig) (file : Option UploadFile) (userId : String)
      (gemini : Except String AiAura) (cloud : Except String CloudUpload)
      (freshImageId freshAuraId : String) (now : Int) {db : DB} :
      Reach db →
      Reach (uploadImage cfg file userId gemini cloud freshImageId freshAuraId now db).1.2
  | stepCleanup (now : Int) {db : DB} : Reach db → Reach (performCleanup now db).2
  | stepCleanupCron (now : Int) {db : DB} : Reach db → Reach (cleanupOtps now db)
  | stepDeleteImage (imageId userId : String) (cloudDel : Except String Unit) {db : DB} :
      Reach db → Reach (deleteImage imageId userId cloudDel db).2

/-- The database invariants: primary keys, the `@unique` and `@@unique`
columns of `schema.prisma`, and nonnegative like counters. -/
structure Inv (db : DB) : Prop where
  userIds : (db.users.map UserRow.id).Nodup
  userPhones : (db.users.map UserRow.phoneNumber).Nodup
  otpIds : (db.otps.map OtpRow.id).Nodup
  imageIds : (db.images.map ImageRow.id).Nodup
  auraIds : (db.auras.map AuraRow.id).Nodup
  auraImageIds : (db.auras.map AuraRow.imageId).Nodup
  followIds : (db.follows.map FollowRow.id).Nodup
  followPairs : (db.follows.map (fun f => (f.followerId, f.followingId))).Nodup
  auraLikes : ∀ a ∈ db.auras, 0 ≤ a.likes

/-- Appending an element whose key clashes with no existing key keeps
the projected list duplicate-free. -/
theorem nodup_map_append {α β : Type _} {f : α → β} {l : List α} {x : α}
    (h : (l.map f).Nodup) (hx : ∀ y ∈ l, f y ≠ f x) : ((l ++ [x]).map f).Nodup := by
  rw [List.map_append, List.map_singleton, List.nodup_append]
  refine ⟨h, List.nodup_singleton _, ?_⟩
  intro b hb hb'
  simp only [List.mem_singleton] at hb'
  subst hb'
  obtain ⟨y, hy, hfy⟩ := List.mem_map.mp hb
  exact hx y hy hfy

/-- Filtering keeps the projected list duplicate-free. -/
theorem nodup_map_filter {α β : Type _} {f : α → β} {p : α → Bool} {l : List α}
    (h : (l.map f).Nodup) : ((l.filter p).map f).Nodup :=
  List.Nodup.sublist ((l.filter_sublist).map f) h

/-- A row-wise update that does not touch the key keeps the projected
list duplicate-free. -/
theorem nodup_map_update {α β : Type _} {f : α → β} {g : α → α} {l : List α}
    (hg : ∀ a, f (g a) = f a) (h : (l.map f).Nodup) : ((l.map g).map f).Nodup := by
  rw [List.map_map]
  have he : List.map (f ∘ g) l = List.map f l :=
    List.map_congr_left (fun a _ => hg a)
  rwa [he]

/-- Insert preservation for `otps`. -/
theorem inv_dbCreateOtp {db db' : DB} {r : OtpRow} (h : Inv db)
    (hc : dbCreateOtp db r = .ok db') : Inv db' := by
  unfold dbCreateOtp at hc
  split at hc
  · cases hc
  · rename_i hany
    injection hc with hdb
    subst hdb
    have hx : ∀ y ∈ db.otps, y.id ≠ r.id := by
      intro y hy he
      exact hany (List.any_eq_true.mpr ⟨y, hy, by simp [he]⟩)
    exact ⟨h.userIds, h.userPhones, nodup_map_append h.otpIds hx, h.imageIds, h.auraIds,
      h.auraImageIds, h.followIds, h.followPairs, h.auraLikes⟩

/-- Insert preservation for `users`. -/
theorem inv_dbCreateUser {db db' : DB} {u : UserRow} (h : Inv db)
    (hc : dbCreateUser db u = .ok db') : Inv db' := by
  unfold dbCreateUser at hc
  split at hc
  · cases hc
  · rename_i hany
    injection hc with hdb
    subst hdb
    have hid : ∀ y ∈ db.users, y.id ≠ u.id := by
      intro y hy he
      exact hany (List.any_eq_true.mpr ⟨y, hy, by simp [he]⟩)
    have hph : ∀ y ∈ db.users, y.phoneNumber ≠ u.phoneNumber := by
      intro y hy he
      exact hany (List.any_eq_true.mpr ⟨y, hy, by simp [he]⟩)
    exact ⟨nodup_map_append h.userIds hid, nodup_map_append h.userPhones hph, h.otpIds,
      h.imageIds, h.auraIds, h.auraImageIds, h.followIds, h.followPairs, h.auraLikes⟩

/-- Insert preservation for `images`. -/
theorem inv_dbCreateImage {db db' : DB} {r : ImageRow} (h : Inv db)
    (hc : dbCreateImage db r = .ok db') : Inv db' := by
  unfold dbCreateImage at hc
  split at hc
  · cases hc
  · rename_i hany
    injection hc with hdb
    subst hdb
    have hx : ∀ y ∈ db.images, y.id ≠ r.id := by
      intro y hy he
      exact hany (List.any_eq_true.mpr ⟨y, hy, by simp [he]⟩)
    exact ⟨h.userIds, h.userPhones, h.otpIds, nodup_map_append h.imageIds hx, h.auraIds,
      h.auraImageIds, h.followIds, h.followPairs, h.auraLikes⟩

/-- Insert preservation for `auras` (for a row with a nonnegative
counter). -/
theorem inv_dbCreateAura {db db' : DB} {r : AuraRow} (h : Inv db) (hl : 0 ≤ r.likes)
    (hc : dbCreateAura db r = .ok db') : Inv db' := by
  unfold dbCreateAura at hc
  split at hc
  · cases hc
  · rename_i hany
    injection hc with hdb
    subst hdb
    have hid : ∀ y ∈ db.auras, y.id ≠ r.id := by
      intro y hy he
      exact hany (List.any_eq_true.mpr ⟨y, hy, by simp [he]⟩)
    have him : ∀ y ∈ db.auras, y.imageId ≠ r.imageId := by
      intro y hy he
      exact hany (List.any_eq_true.mpr ⟨y, hy, by simp [he]⟩)
    refine ⟨h.userIds, h.userPhones, h.otpIds, h.imageIds, nodup_map_append h.auraIds hid,
      nodup_map_append h.auraImageIds him, h.followIds, h.followPairs, ?_⟩
    intro a ha
    rcases List.mem_append.mp ha with ha | ha
    · exact h.auraLikes a ha
    · simp only [List.mem_singleton] at ha
      subst ha
      exact hl

/-- Insert preservation for `follows`. -/
theorem inv_dbCreateFollow {db db' : DB} {r : FollowRow} (h : Inv db)
    (hc : dbCreateFollow db r = .ok db') : Inv db' := by
  unfold dbCreateFollow at hc
  split at hc
  · cases hc
  · rename_i hany
    injection hc with hdb
    subst hdb
    have hid : ∀ y ∈ db.follows, y.id ≠ r.id := by
      intro y hy he
      exact hany (List.any_eq_true.mpr ⟨y, hy, by simp [he]⟩)
    have hpair : ∀ y ∈ db.follows,
        (fun f : FollowRow => (f.followerId, f.followingId)) y ≠ (r.followerId, r.followingId) := by
      intro y hy he
      simp only [Prod.mk.injEq] at he
      exact hany (List.any_eq_true.mpr ⟨y, hy, by simp [he.1, he.2]⟩)
    exact ⟨h.userIds, h.userPhones, h.otpIds, h.imageIds, h.auraIds, h.auraImageIds,
      nodup_map_append h.followIds hid, nodup_map_append h.followPairs hpair, h.auraLikes⟩

/-- Invariant preservation for `sendOtp`. -/
theorem inv_sendOtp {db : DB} (phone code : String) (now : Int) (freshId : String)
    (tw : TwilioClient) (env : String) (h : Inv db) :
    Inv (sendOtp phone code now freshId tw env db).2 := by
  unfold sendOtp
  cases hcr : dbCreateOtp db (sendOtpRow phone code now freshId) with
  | error e => simpa using h
  | ok db1 =>
    have h1 : Inv db1 := inv_dbCreateOtp h hcr
    cases tw with
    | notConfigured => simpa using h1
    | configured res =>
      cases res with
      | ok u => simpa using h1
      | error e =>
        by_cases hp : env == "production" <;> simp [hp] <;> exact h1

/-- Invariant preservation for `verifyOtp`. -/
theorem inv_verifyOtp {db : DB} (phone code : String) (now : Int) (h : Inv db) :
    Inv (verifyOtp phone code now db).2 := by
  unfold verifyOtp
  cases hf : db.otps.find? (otpValid phone code now) with
  | none => exact h
  | some otp =>
    dsimp only
    have hg : ∀ r : OtpRow,
        (if r.id == otp.id then { r with isUsed := true } else r).id = r.id := by
      intro r
      by_cases hr : r.id == otp.id <;> simp [hr]
    have h1 : Inv { db with
        otps := db.otps.map (fun r => if r.id == otp.id then { r with isUsed := true } else r) } :=
      ⟨h.userIds, h.userPhones, nodup_map_update hg h.otpIds, h.imageIds, h.auraIds,
        h.auraImageIds, h.followIds, h.followPairs, h.auraLikes⟩
    cases hfu : db.users.find? (fun u => u.phoneNumber == phone) with
    | none => exact h1
    | some u =>
      by_cases hpic : u.profilePictureUrl.isNone
      · have hgu : ∀ v : UserRow,
            (if v.id == u.id then { v with profilePictureUrl := some (dicebearUrl phone) }
              else v).id = v.id := by
          intro v
          by_cases hv : v.id == u.id <;> simp [hv]
        have hgp : ∀ v : UserRow,
            (if v.id == u.id then { v with profilePictureUrl := some (dicebearUrl phone) }
              else v).phoneNumber = v.phoneNumber := by
          intro v
          by_cases hv : v.id == u.id <;> simp [hv]
        simp only [hpic, if_true]
        exact ⟨nodup_map_update hgu h.userIds, nodup_map_update hgp h.userPhones, h1.otpIds,
          h.imageIds, h.auraIds, h.auraImageIds, h.followIds, h.followPairs, h.auraLikes⟩
      · simp only [hpic, if_false]
        exact h1

/-- Invariant preservation for `register`. -/
theorem inv_register {db : DB} (inp : RegisterInput)
    (pic : Option (Except String (String × String))) (freshId : String) (h : Inv db) :
    Inv (register inp pic freshId db).2 := by
  unfold register
  split
  · exact h
  · dsimp only
    split
    · exact h
    · rename_i db1 hcr
      exact inv_dbCreateUser h hcr

/-- Invariant preservation for `followUser`. -/
theorem inv_followUser {db : DB} (followerId followingId : String) (now : Int)
    (freshId : String) (h : Inv db) :
    Inv (followUser followerId followingId now freshId db).2 := by
  unfold followUser
  split
  · exact h
  · split
    · exact h
    · split
      · exact h
      · split
        · exact h
        · rename_i db1 hcr
          exact inv_dbCreateFollow h hcr

/-- Invariant preservation for `unfollowUser`. -/
theorem inv_unfollowUser {db : DB} (followerId followingId : String) (h : Inv db) :
    Inv (unfollowUser followerId followingId db).2 := by
  unfold unfollowUser
  split
  · exact h
  · exact ⟨h.userIds, h.userPhones, h.otpIds, h.imageIds, h.auraIds, h.auraImageIds,
      nodup_map_filter h.followIds, nodup_map_filter h.followPairs, h.auraLikes⟩

/-- Invariant preservation for `likeAura`. -/
theorem inv_likeAura {db : DB} (userId auraId : String) (h : Inv db) :
    Inv (likeAura userId auraId db).2 := by
  unfold likeAura
  cases hf : db.auras.find? (fun a => a.id == auraId) with
  | none => exact h
  | some aura =>
    dsimp only
    have hgi : ∀ a : AuraRow,
        (if a.id == auraId then { a with likes := a.likes + 1 } else a).id = a.id := by
      intro a
      by_cases ha : a.id == auraId <;> simp [ha]
    have hgm : ∀ a : AuraRow,
        (if a.id == auraId then { a with likes := a.likes + 1 } else a).imageId = a.imageId := by
      intro a
      by_cases ha : a.id == auraId <;> simp [ha]
    refine ⟨h.userIds, h.userPhones, h.otpIds, h.imageIds, nodup_map_update hgi h.auraIds,
      nodup_map_update hgm h.auraImageIds, h.followIds, h.followPairs, ?_⟩
    intro a' ha'
    obtain ⟨a, ha, rfl⟩ := List.mem_map.mp ha'
    by_cases hid : a.id == auraId
    · have := h.auraLikes a ha
      simp only [hid, if_true]
      omega
    · simp only [hid, if_false]
      exact h.auraLikes a ha

/-- Invariant preservation for `unlikeAura`: the conditional decrement
keeps the counter nonnegative. -/
theorem inv_unlikeAura {db : DB} (userId auraId : String) (h : Inv db) :
    Inv (unlikeAura userId auraId db).2 := by
  unfold unlikeAura
  cases hf : db.auras.find? (fun a => a.id == auraId) with
  | none => exact h
  | some aura =>
    dsimp only
    have hgi : ∀ a : AuraRow,
        (if a.id == auraId then { a with likes := a.likes - (if 0 < aura.likes then 1 else 0) }
          else a).id = a.id := by
      intro a
      by_cases ha : a.id == auraId <;> simp [ha]
    have hgm : ∀ a : AuraRow,
        (if a.id == auraId then { a with likes := a.likes - (if 0 < aura.likes then 1 else 0) }
          else a).imageId = a.imageId := by
      intro a
      by_cases ha : a.id == auraId <;> simp [ha]
    refine ⟨h.userIds, h.userPhones, h.otpIds, h.imageIds, nodup_map_update hgi h.auraIds,
      nodup_map_update hgm h.auraImageIds, h.followIds, h.followPairs, ?_⟩
    intro a' ha'
    obtain ⟨a, ha, rfl⟩ := List.mem_map.mp ha'
    by_cases hid : a.id == auraId
    · have haura : aura ∈ db.auras := List.mem_of_find?_eq_some hf
      have hauraid : aura.id = auraId := by simpa using List.find?_some hf
      have haid : a.id = auraId := by simpa using hid
      have haeq : a = aura :=
        List.inj_on_of_nodup_map h.auraIds ha haura (by rw [haid, hauraid])
      subst haeq
      have hnn := h.auraLikes a ha
      simp only [hid, if_true]
      by_cases hpos : (0 : Int) < a.likes <;> simp [hpos] <;> omega
    · simp only [hid, if_false]
      exact h.auraLikes a ha

/-- Invariant preservation for `shareAura`. -/
theorem inv_shareAura {db : DB} (userId auraId : String) (h : Inv db) :
    Inv (shareAura userId auraId db).2 := by
  unfold shareAura
  cases hf : db.auras.find? (fun a => a.id == auraId) with
  | none => exact h
  | some aura =>
    dsimp only
    have hgi : ∀ a : AuraRow,
        (if a.id == auraId then { a with shares := a.shares + 1 } else a).id = a.id := by
      intro a
      by_cases ha : a.id == auraId <;> simp [ha]
    have hgm : ∀ a : AuraRow,
        (if a.id == auraId then { a with shares := a.shares + 1 } else a).imageId = a.imageId := by
      intro a
      by_cases ha : a.id == auraId <;> simp [ha]
    refine ⟨h.userIds, h.userPhones, h.otpIds, h.imageIds, nodup_map_update hgi h.auraIds,
      nodup_map_update hgm h.auraImageIds, h.followIds, h.followPairs, ?_⟩
    intro a' ha'
    obtain ⟨a, ha, rfl⟩ := List.mem_map.mp ha'
    by_cases hid : a.id == auraId
    · have := h.auraLikes a ha
      simp only [hid, if_true]
      omega
    · simp only [hid, if_false]
      exact h.auraLikes a ha

/-- Invariant preservation for `uploadImage`. -/
theorem inv_uploadImage {db : DB} (cfg : UploadConfig) (file : Option UploadFile)
    (userId : String) (gemini : Except String AiAura) (cloud : Except String CloudUpload)
    (freshImageId freshAuraId : String) (now : Int) (h : Inv db) :
    Inv (uploadImage cfg file userId gemini cloud freshImageId freshAuraId now db).1.2 := by
  unfold uploadImage
  split
  · exact h
  · split
    · exact h
    · split
      · exact h
      · split
        · exact h
        · split
          · exact h
          · dsimp only
            split
            · exact h
            · rename_i db1 hcr
              have h1 : Inv db1 := inv_dbCreateImage h hcr
              split
              · exact h1
              · rename_i db2 hca
                exact inv_dbCreateAura h1 (by simp) hca

/-- Invariant preservation for `performCleanup`. -/
theorem inv_performCleanup {db : DB} (now : Int) (h : Inv db) :
    Inv (performCleanup now db).2 :=
  ⟨h.userIds, h.userPhones, nodup_map_filter (nodup_map_filter h.otpIds), h.imageIds,
    h.auraIds, h.auraImageIds, h.followIds, h.followPairs, h.auraLikes⟩

/-- Invariant preservation for the cron cleanup. -/
theorem inv_cleanupOtps {db : DB} (now : Int) (h : Inv db) :
    Inv (cleanupOtps now db) :=
  ⟨h.userIds, h.userPhones, nodup_map_filter (nodup_map_filter h.otpIds), h.imageIds,
    h.auraIds, h.auraImageIds, h.followIds, h.followPairs, h.auraLikes⟩

/-- Invariant preservation for `deleteImage`. -/
theorem inv_deleteImage {db : DB} (imageId userId : String) (cloudDel : Except String Unit)
    (h : Inv db) : Inv (deleteImage imageId userId cloudDel db).2 := by
  unfold deleteImage
  split
  · exact h
  · split
    · exact h
    · refine ⟨h.userIds, h.userPhones, h.otpIds, nodup_map_filter h.imageIds,
        nodup_map_filter h.auraIds, nodup_map_filter h.auraImageIds, h.followIds,
        h.followPairs, ?_⟩
      intro a ha
      exact h.auraLikes a (List.mem_of_mem_filter ha)

/-- Every reachable database state satisfies the schema invariants and
keeps like counters nonnegative. -/
theorem reach_inv {db : DB} (h : Reach db) : Inv db := by
  induction h with
  | empty =>
    exact ⟨List.nodup_nil, List.nodup_nil, List.nodup_nil, List.nodup_nil, List.nodup_nil,
      List.nodup_nil, List.nodup_nil, List.nodup_nil, by intro a ha; cases ha⟩
  | stepSendOtp phone code now freshId tw env _ ih => exact inv_sendOtp phone code now freshId tw env ih
  | stepVerifyOtp phone code now _ ih => exact inv_verifyOtp phone code now ih
  | stepRegister inp pic freshId _ ih => exact inv_register inp pic freshId ih
  | stepFollow a b now freshId _ ih => exact inv_followUser a b now freshId ih
  | stepUnfollow a b _ ih => exact inv_unfollowUser a b ih
  | stepLike u a _ ih => exact inv_likeAura u a ih
  | stepUnlike u a _ ih => exact inv_unlikeAura u a ih
  | stepShare u a _ ih => exact inv_shareAura u a ih
  | stepUpload cfg file u g c i a now _ ih => exact inv_uploadImage cfg file u g c i a now ih
  | stepCleanup now _ ih => exact inv_performCleanup now ih
  | stepCleanupCron now _ ih => exact inv_cleanupOtps now ih
  | stepDeleteImage i u cd _ ih => exact inv_deleteImage i u cd ih

/-- The retry-shaped branches of one loop iteration satisfy the spec. -/
theorem fetchSpec_retry (outcomes : Nat → FetchOutcome) (f attempt : Nat) (msg : String)
    (hcur : fetchSuccess (outcomes attempt) = false)
    (ih : FetchSpec outcomes f (attempt + 1) (fetchGo outcomes (attempt + 1) f)) :
    FetchSpec outcomes (f + 1) attempt
      (if 0 < f then
        ((fetchGo outcomes (attempt + 1) f).1,
          FetchEvent.attemptNo attempt :: FetchEvent.sleep 2000 ::
            (fetchGo outcomes (attempt + 1) f).2)
      else (.error (fetchFailMsg msg), [FetchEvent.attemptNo attempt])) := by
  obtain ⟨h1, h2, h3, h4, h5, h6⟩ := ih
  by_cases hf : 0 < f
  · rw [if_pos hf]
    refine ⟨?_, ?_, ?_, ?_, ?_, ?_⟩
    · simp [List.countP_cons, FetchEvent.isAttempt, FetchEvent.isSleep]
      omega
    · intro _
      simp [List.countP_cons, FetchEvent.isAttempt]
    · have h2f := h2 hf
      simp [List.countP_cons, FetchEvent.isAttempt, FetchEvent.isSleep]
      omega
    · intro n hn
      simp only [List.mem_cons] at hn
      rcases hn with hn | hn | hn
      · simp at hn
      · simpa using hn
      · exact h4 n hn
    · intro s hs
      obtain ⟨i, hi1, hi2, rest⟩ := h5 s hs
      exact ⟨i, by omega, by omega, rest⟩
    · intro e he
      obtain ⟨hc, hall⟩ := h6 e he
      constructor
      · simp [List.countP_cons, FetchEvent.isAttempt]
        omega
      · intro i hi1 hi2
        rcases Nat.eq_or_lt_of_le hi1 with hi | hi
        · rw [← hi]
          exact hcur
        · exact hall i hi (by omega)
  · rw [if_neg hf]
    have hf0 : f = 0 := by omega
    subst hf0
    refine ⟨?_, ?_, ?_, ?_, ?_, ?_⟩
    · simp [FetchEvent.isAttempt]
    · intro _
      simp [FetchEvent.isAttempt]
    · simp [FetchEvent.isAttempt, FetchEvent.isSleep]
    · intro n hn
      simp only [List.mem_cons] at hn
      rcases hn with hn | hn
      · cases hn
      · cases hn
    · intro s hs
      cases hs
    · intro e he
      refine ⟨by simp [FetchEvent.isAttempt], ?_⟩
      intro i hi1 hi2
      have : i = attempt := by omega
      subst this
      exact hcur

/-- The loop of `fetchImageAsBase64` meets its spec for every fuel. -/
theorem fetchGo_fetchSpec (outcomes : Nat → FetchOutcome) (fuel : Nat) :
    ∀ attempt, FetchSpec outcomes fuel attempt (fetchGo outcomes attempt fuel) := by
  induction fuel with
  | zero =>
    intro attempt
    refine ⟨by simp [fetchGo], by simp, by simp [fetchGo], ?_, ?_, ?_⟩
    · intro n hn
      simp [fetchGo] at hn
    · intro s hs
      simp [fetchGo] at hs
    · intro e he
      exact ⟨by simp [fetchGo], fun i hi1 hi2 => by omega⟩
  | succ f ih =>
    intro attempt
    unfold fetchGo
    dsimp only
    cases ho : outcomes attempt with
    | ok buf =>
      dsimp only
      by_cases hlen : buf.length < 100
      · rw [if_pos hlen]
        refine fetchSpec_retry outcomes f attempt _ ?_ (ih (attempt + 1))
        simp only [fetchSuccess, ho]
        simp only [decide_eq_false_iff_not]
        omega
      · rw [if_neg hlen]
        refine ⟨by simp [FetchEvent.isAttempt], fun _ => by simp [FetchEvent.isAttempt],
          by simp [FetchEvent.isAttempt, FetchEvent.isSleep], ?_, ?_, ?_⟩
        · intro n hn
          simp only [List.mem_cons, List.not_mem_nil, or_false] at hn
          cases hn
        · intro s hs
          injection hs with hs
          exact ⟨attempt, le_refl _, by omega, buf, ho, by omega, hs.symm⟩
        · intro e he
          cases he
    | httpError status statusText =>
      exact fetchSpec_retry outcomes f attempt _ (by simp [fetchSuccess, ho]) (ih (attempt + 1))
    | netError m =>
      exact fetchSpec_retry outcomes f attempt _ (by simp [fetchSuccess, ho]) (ih (attempt + 1))

/-! ## Order lemmas for the leaderboard comparator -/

/-- The boolean comparator agrees with the three-key descending order. -/
theorem lbLE_iff (a b : LbEntry) : lbLE a b = true ↔ lbKeyGE a b := by
  unfold lbLE lbKeyGE
  by_cases h1 : a.stats.totalConfidence = b.stats.totalConfidence
  · by_cases h2 : a.stats.averageConfidence = b.stats.averageConfidence
    · simp [h1, h2]
    · simp [h1, h2]
  · simp only [h1, if_false]
    constructor
    · intro h
      exact Or.inl (of_decide_eq_true h)
    · rintro (h | ⟨he, _⟩)
      · exact decide_eq_true h
      · exact he.elim

/-- The three-key descending order is transitive. -/
theorem lbKeyGE_trans {a b c : LbEntry} (hab : lbKeyGE a b) (hbc : lbKeyGE b c) :
    lbKeyGE a c := by
  unfold lbKeyGE at hab hbc ⊢
  rcases hab with h1 | ⟨e1, h1⟩
  · rcases hbc with h2 | ⟨e2, _⟩
    · exact Or.inl (lt_trans h2 h1)
    · exact Or.inl (e2 ▸ h1)
  · rcases hbc with h2 | ⟨e2, h2⟩
    · exact Or.inl (e1 ▸ h2)
    · refine Or.inr ⟨e1.trans e2, ?_⟩
      rcases h1 with h1 | ⟨f1, h1⟩
      · rcases h2 with h2 | ⟨f2, _⟩
        · exact Or.inl (lt_trans h2 h1)
        · exact Or.inl (f2 ▸ h1)
      · rcases h2 with h2 | ⟨f2, h2⟩
        · exact Or.inl (f1 ▸ h2)
        · exact Or.inr ⟨f1.trans f2, le_trans h2 h1⟩

/-- The three-key descending order is total. -/
theorem lbKeyGE_total (a b : LbEntry) : lbKeyGE a b ∨ lbKeyGE b a := by
  unfold lbKeyGE
  rcases lt_trichotomy a.stats.totalConfidence b.stats.totalConfidence with h | h | h
  · exact Or.inr (Or.inl h)
  · rcases lt_trichotomy a.stats.averageConfidence b.stats.averageConfidence with h2 | h2 | h2
    · exact Or.inr (Or.inr ⟨h.symm, Or.inl h2⟩)
    · rcases le_total b.stats.totalScans a.stats.totalScans with h3 | h3
      · exact Or.inl (Or.inr ⟨h, Or.inr ⟨h2, h3⟩⟩)
      · exact Or.inr (Or.inr ⟨h.symm, Or.inr ⟨h2.symm, h3⟩⟩)
    · exact Or.inl (Or.inr ⟨h, Or.inl h2⟩)
  · exact Or.inl (Or.inl h)

/-- Transitivity, in the boolean form used by `mergeSort`. -/
theorem lbLE_trans (a b c : LbEntry) (hab : lbLE a b = true) (hbc : lbLE b c = true) :
    lbLE a c = true :=
  (lbLE_iff a c).mpr (lbKeyGE_trans ((lbLE_iff a b).mp hab) ((lbLE_iff b c).mp hbc))

/-- Totality, in the boolean form used by `mergeSort`. -/
theorem lbLE_total (a b : LbEntry) : (lbLE a b || lbLE b a) = true := by
  rcases lbKeyGE_total a b with h | h
  · simp [(lbLE_iff a b).mpr h]
  · simp [(lbLE_iff b a).mpr h]

/-- Entries with equal keys compare `true` in list order, so the stable
sort keeps their relative order. -/
theorem lbLE_of_sameKeys {a b : LbEntry} (h : lbSameKeys a b) : lbLE a b = true := by
  obtain ⟨h1, h2, h3⟩ := h
  simp [lbLE, h1, h2, h3]

/-- The ranked list, without the rank column, is the stable sort of the
filtered entries. -/
theorem rankedUsers_map_snd (users : List LbUserFetched) :
    (rankedUsers users).map Prod.snd = (lbEntries users).mergeSort lbLE := by
  unfold rankedUsers
  rw [List.map_map]
  have he : List.map (Prod.snd ∘ fun p : Nat × LbEntry => (p.1 + 1, p.2))
      ((lbEntries users).mergeSort lbLE).enum =
      List.map Prod.snd ((lbEntries users).mergeSort lbLE).enum :=
    List.map_congr_left (fun a _ => rfl)
  rw [he, List.enum_map_snd]

/-! ## Claim theorems -/

/-- Claim C5: the cleanup deletes exactly the used OTP rows together
with the unused OTP rows created more than 30 minutes before the call;
every other OTP row and all other tables are unchanged, the reported
counts equal the rows deleted by each criterion, and the cron variant
`cleanupOtps` leaves the same state. -/
theorem performCleanup_spec (now : Int) (db : DB) :
    (performCleanup now db).2.otps =
      db.otps.filter (fun r => !r.isUsed && !(r.createdAt < now - 30 * 60 * 1000)) ∧
    (performCleanup now db).2.users = db.users ∧
    (performCleanup now db).2.images = db.images ∧
    (performCleanup now db).2.auras = db.auras ∧
    (performCleanup now db).2.follows = db.follows ∧
    (performCleanup now db).1.verifiedOtpsDeleted = db.otps.countP (fun r => r.isUsed) ∧
    (performCleanup now db).1.expiredUnusedOtpsDeleted =
      db.otps.countP (fun r => !r.isUsed && r.createdAt < now - 30 * 60 * 1000) ∧
    (performCleanup now db).1.totalDeleted =
      db.otps.countP (fun r => r.isUsed) +
        db.otps.countP (fun r => !r.isUsed && r.createdAt < now - 30 * 60 * 1000) ∧
    cleanupOtps now db = (performCleanup now db).2 := by
  refine ⟨?_, rfl, rfl, rfl, rfl, rfl, ?_, ?_, rfl⟩
  · show (db.otps.filter (fun r => !r.isUsed)).filter
        (fun r => !(!r.isUsed && r.createdAt < now - 30 * 60 * 1000)) = _
    rw [List.filter_filter]
    apply List.filter_congr
    intro r _
    cases hu : r.isUsed <;>
      cases ho : (decide (r.createdAt < now - 30 * 60 * 1000)) <;> simp [hu, ho]
  · show (db.otps.filter (fun r => !r.isUsed)).countP
        (fun r => !r.isUsed && r.createdAt < now - 30 * 60 * 1000) = _
    rw [List.countP_filter]
    apply List.countP_congr
    intro r _
    cases hu : r.isUsed <;>
      cases ho : (decide (r.createdAt < now - 30 * 60 * 1000)) <;> simp [hu, ho]
  · show db.otps.countP (fun r => r.isUsed) +
        (db.otps.filter (fun r => !r.isUsed)).countP
          (fun r => !r.isUsed && r.createdAt < now - 30 * 60 * 1000) = _
    congr 1
    rw [List.countP_filter]
    apply List.countP_congr
    intro r _
    cases hu : r.isUsed <;>
      cases ho : (decide (r.createdAt < now - 30 * 60 * 1000)) <;> simp [hu, ho]

/-- Claim C4: for distinct users where the target exists and the
relation is absent, `followUser` adds exactly the pair and answers
`following: true`; the subsequent `unfollowUser` removes exactly that
pair, answers `following: false`, and restores the original state. -/
theorem follow_unfollow_toggle (followerId followingId : String) (now : Int) (freshId : String)
    (db : DB) (hne : followerId ≠ followingId)
    (hexists : ∃ u ∈ db.users, u.id = followingId)
    (habsent : ∀ f ∈ db.follows,
      ¬(f.followerId = followerId ∧ f.followingId = followingId))
    (hfresh : ∀ f ∈ db.follows, f.id ≠ freshId) :
    (followUser followerId followingId now freshId db).1 =
      .ok { message := "User followed successfully", following := true } ∧
    (followUser followerId followingId now freshId db).2 =
      { db with follows := db.follows ++
          [{ id := freshId, followerId := followerId, followingId := followingId,
             createdAt := now }] } ∧
    (unfollowUser followerId followingId
        (followUser followerId followingId now freshId db).2).1 =
      .ok { message := "User unfollowed successfully", following := false } ∧
    (unfollowUser followerId followingId
        (followUser followerId followingId now freshId db).2).2 = db := by
  have hbeq : (followerId == followingId) = false := by
    simp [hne]
  have hfindu : (db.users.find? (fun u => u.id == followingId)).isSome := by
    rw [List.find?_isSome]
    obtain ⟨u, hu, hid⟩ := hexists
    exact ⟨u, hu, by simp [hid]⟩
  have hfindf : db.follows.find?
      (fun f => f.followerId == followerId && f.followingId == followingId) = none := by
    rw [List.find?_eq_none]
    intro f hf
    simp only [Bool.and_eq_true, beq_iff_eq]
    intro hc
    exact habsent f hf hc
  have hguard : db.follows.any (fun v =>
      v.id == freshId ||
        (v.followerId == followerId && v.followingId == followingId)) = false := by
    rw [← Bool.not_eq_true, List.any_eq_true]
    rintro ⟨f, hf, hp⟩
    simp only [Bool.or_eq_true, Bool.and_eq_true, beq_iff_eq] at hp
    rcases hp with hp | hp
    · exact hfresh f hf hp
    · exact habsent f hf hp
  obtain ⟨u, hu⟩ := Option.isSome_iff_exists.mp hfindu
  have hstate : (followUser followerId followingId now freshId db).2 =
      { db with follows := db.follows ++
          [{ id := freshId, followerId := followerId, followingId := followingId,
             createdAt := now }] } := by
    unfold followUser
    rw [hbeq]
    simp only [Bool.false_eq_true, if_false]
    rw [hu, hfindf]
    unfold dbCreateFollow
    rw [hguard]
    simp
  have hres : (followUser followerId followingId now freshId db).1 =
      .ok { message := "User followed successfully", following := true } := by
    unfold followUser
    rw [hbeq]
    simp only [Bool.false_eq_true, if_false]
    rw [hu, hfindf]
    unfold dbCreateFollow
    rw [hguard]
    simp
  refine ⟨hres, hstate, ?_, ?_⟩
  · unfold unfollowUser
    rw [hstate]
    simp only
    rw [List.find?_append, hfindf]
    simp
  · unfold unfollowUser
    rw [hstate]
    simp only
    rw [List.find?_append, hfindf]
    simp only [Option.none_or]
    rw [List.find?_cons_of_pos _ (by simp)]
    simp only
    rw [List.filter_append]
    have h1 : db.follows.filter (fun f =>
        !(f.followerId == followerId && f.followingId == followingId)) = db.follows := by
      rw [List.filter_eq_self]
      intro f hf
      simp only [Bool.not_eq_eq_eq_not, Bool.not_true, Bool.and_eq_false_iff]
      by_cases h : f.followerId = followerId
      · right
        simp only [beq_eq_false_iff_ne, ne_eq]
        intro hc
        exact habsent f hf ⟨h, hc⟩
      · left
        simp [h]
    rw [h1]
    simp

/-- Witness for claim C4 at a concrete database with one target user. -/
theorem follow_unfollow_toggle_witness :
    (followUser "A" "B" 0 "f1" sampleDbB).1 =
      .ok { message := "User followed successfully", following := true } ∧
    (followUser "A" "B" 0 "f1" sampleDbB).2 =
      { sampleDbB with follows := sampleDbB.follows ++
          [{ id := "f1", followerId := "A", followingId := "B", createdAt := 0 }] } ∧
    (unfollowUser "A" "B" (followUser "A" "B" 0 "f1" sampleDbB).2).1 =
      .ok { message := "User unfollowed successfully", following := false } ∧
    (unfollowUser "A" "B" (followUser "A" "B" 0 "f1" sampleDbB).2).2 = sampleDbB :=
  follow_unfollow_toggle "A" "B" 0 "f1" sampleDbB (by decide)
    ⟨sampleUserB, by simp [sampleDbB, dbEmpty], rfl⟩
    (by intro f hf; simp [sampleDbB, dbEmpty] at hf)
    (by intro f hf; simp [sampleDbB, dbEmpty] at hf)

/-- Claim C10: outside production, `sendOtp` answers success after
persisting the OTP row even when the Twilio send throws or the client is
unconfigured; only in production does a send failure raise
`BadRequestException` (the row is still persisted first). -/
theorem sendOtp_env_spec (phone code : String) (now : Int) (freshId env : String) (db : DB)
    (hfresh : ∀ r ∈ db.otps, r.id ≠ freshId) :
    (env ≠ "production" → ∀ e,
      (sendOtp phone code now freshId (.configured (.error e)) env db).1 =
        .ok { message := "OTP sent successfully",
              code := if env == "development" then some code else none } ∧
      (sendOtp phone code now freshId (.configured (.error e)) env db).2 =
        { db with otps := db.otps ++ [sendOtpRow phone code now freshId] }) ∧
    ((sendOtp phone code now freshId .notConfigured env db).1 =
      .ok { message := "OTP sent successfully",
            code := if env == "development" then some code else none } ∧
     (sendOtp phone code now freshId .notConfigured env db).2 =
      { db with otps := db.otps ++ [sendOtpRow phone code now freshId] }) ∧
    (∀ e, (sendOtp phone code now freshId (.configured (.error e)) "production" db).1 =
        .error (.badRequest ("Failed to send OTP: " ++ e)) ∧
      (sendOtp phone code now freshId (.configured (.error e)) "production" db).2 =
        { db with otps := db.otps ++ [sendOtpRow phone code now freshId] }) := by
  have hguard : db.otps.any (fun v => v.id == (sendOtpRow phone code now freshId).id) = false := by
    rw [← Bool.not_eq_true, List.any_eq_true]
    rintro ⟨r, hr, hp⟩
    simp only [beq_iff_eq, sendOtpRow] at hp
    exact hfresh r hr hp
  have hcr : dbCreateOtp db (sendOtpRow phone code now freshId) =
      .ok { db with otps := db.otps ++ [sendOtpRow phone code now freshId] } := by
    unfold dbCreateOtp
    rw [hguard]
    simp
  refine ⟨?_, ?_, ?_⟩
  · intro hne e
    have henv : (env == "production") = false := by simp [hne]
    unfold sendOtp
    rw [hcr]
    simp [henv]
  · unfold sendOtp
    rw [hcr]
    simp
  · intro e
    unfold sendOtp
    rw [hcr]
    simp

/-- Witness for claim C10 in the development environment. -/
theorem sendOtp_env_spec_witness :
    ("development" ≠ "production" → ∀ e,
      (sendOtp "+15550100" "123456" 0 "o9" (.configured (.error e)) "development" dbEmpty).1 =
        .ok { message := "OTP sent successfully",
              code := if "development" == "development" then some "123456" else none } ∧
      (sendOtp "+15550100" "123456" 0 "o9" (.configured (.error e)) "development" dbEmpty).2 =
        { dbEmpty with otps := dbEmpty.otps ++ [sendOtpRow "+15550100" "123456" 0 "o9"] }) ∧
    ((sendOtp "+15550100" "123456" 0 "o9" .notConfigured "development" dbEmpty).1 =
      .ok { message := "OTP sent successfully",
            code := if "development" == "development" then some "123456" else none } ∧
     (sendOtp "+15550100" "123456" 0 "o9" .notConfigured "development" dbEmpty).2 =
      { dbEmpty with otps := dbEmpty.otps ++ [sendOtpRow "+15550100" "123456" 0 "o9"] }) ∧
    (∀ e, (sendOtp "+15550100" "123456" 0 "o9" (.configured (.error e)) "production" dbEmpty).1 =
        .error (.badRequest ("Failed to send OTP: " ++ e)) ∧
      (sendOtp "+15550100" "123456" 0 "o9" (.configured (.error e)) "production" dbEmpty).2 =
        { dbEmpty with otps := dbEmpty.otps ++ [sendOtpRow "+15550100" "123456" 0 "o9"] }) :=
  sendOtp_env_spec "+15550100" "123456" 0 "o9" "development" dbEmpty
    (by intro r hr; simp [dbEmpty] at hr)

/-- Under duplicate-free ids, `find?` by id returns the member with that
id. -/
theorem find?_aura_id {l : List AuraRow} {aura : AuraRow} {auraId : String}
    (hnodup : (l.map AuraRow.id).Nodup) (hmem : aura ∈ l) (hid : aura.id = auraId) :
    l.find? (fun a => a.id == auraId) = some aura := by
  cases hf : l.find? (fun a => a.id == auraId) with
  | none =>
    rw [List.find?_eq_none] at hf
    exact absurd (by simp [hid]) (hf aura hmem)
  | some a' =>
    have ha' : a' ∈ l := List.mem_of_find?_eq_some hf
    have hpa : a'.id = auraId := by simpa using List.find?_some hf
    have : a' = aura := List.inj_on_of_nodup_map hnodup ha' hmem (by rw [hpa, hid])
    rw [this]

/-- Behaviour of one `likeAura` call once the aura is found. -/
theorem likeAura_step {db : DB} {aura : AuraRow} {auraId : String} (u : String)
    (hfind : db.auras.find? (fun a => a.id == auraId) = some aura) :
    (likeAura u auraId db).1 =
      .ok { message := "Aura liked successfully", liked := true, totalLikes := aura.likes + 1 } ∧
    (likeAura u auraId db).2.auras =
      db.auras.map (fun a => if a.id == auraId then { a with likes := a.likes + 1 } else a) := by
  unfold likeAura
  rw [hfind]
  exact ⟨rfl, rfl⟩

/-- Behaviour of one `unlikeAura` call once the aura is found. -/
theorem unlikeAura_step {db : DB} {aura : AuraRow} {auraId : String} (u : String)
    (hfind : db.auras.find? (fun a => a.id == auraId) = some aura) :
    (unlikeAura u auraId db).1 =
      .ok { message := "Aura unliked successfully", liked := false,
            totalLikes := aura.likes - (if 0 < aura.likes then 1 else 0) } := by
  unfold unlikeAura
  rw [hfind]

/-- Claim C9: likes are a bare per-aura counter.  `likeAura` and
`unlikeAura` ignore the calling user, each like adds exactly 1 (so the
same user liking twice adds 2), and `unlikeAura` succeeds for a user who
never liked the aura. -/
theorem likes_no_user_tracking (u1 u2 auraId : String) (db : DB) (aura : AuraRow)
    (hmem : aura ∈ db.auras) (hid : aura.id = auraId)
    (hnodup : (db.auras.map AuraRow.id).Nodup) :
    likeAura u1 auraId db = likeAura u2 auraId db ∧
    unlikeAura u1 auraId db = unlikeAura u2 auraId db ∧
    (likeAura u1 auraId db).1 =
      .ok { message := "Aura liked successfully", liked := true, totalLikes := aura.likes + 1 } ∧
    (likeAura u1 auraId (likeAura u1 auraId db).2).1 =
      .ok { message := "Aura liked successfully", liked := true, totalLikes := aura.likes + 2 } ∧
    (∃ a ∈ (likeAura u1 auraId (likeAura u1 auraId db).2).2.auras,
      a.id = auraId ∧ a.likes = aura.likes + 2) ∧
    (0 < aura.likes →
      (unlikeAura u2 auraId db).1 =
        .ok { message := "Aura unliked successfully", liked := false,
              totalLikes := aura.likes - 1 }) := by
  have hfind : db.auras.find? (fun a => a.id == auraId) = some aura :=
    find?_aura_id hnodup hmem hid
  have h1 := likeAura_step u1 hfind
  have hfind2 : (likeAura u1 auraId db).2.auras.find? (fun a => a.id == auraId) =
      some { aura with likes := aura.likes + 1 } := by
    rw [h1.2, List.find?_map]
    have hp : ((fun a : AuraRow => a.id == auraId) ∘
        (fun a => if a.id == auraId then { a with likes := a.likes + 1 } else a)) =
        (fun a : AuraRow => a.id == auraId) := by
      funext a
      by_cases h : a.id = auraId
      · simp [h]
      · simp [h]
    rw [hp, hfind]
    simp [hid]
  have h2 := likeAura_step u1 hfind2
  refine ⟨rfl, rfl, h1.1, ?_, ?_, ?_⟩
  · rw [h2.1]
    simp only [Except.ok.injEq, LikeOk.mk.injEq, true_and]
    omega
  · refine ⟨{ aura with likes := aura.likes + 1 + 1 }, ?_, hid,
      by show aura.likes + 1 + 1 = aura.likes + 2; omega⟩
    rw [h2.2, h1.2]
    have hm1 : ({ aura with likes := aura.likes + 1 } : AuraRow) ∈
        db.auras.map (fun a => if a.id == auraId then { a with likes := a.likes + 1 } else a) := by
      refine List.mem_map.mpr ⟨aura, hmem, ?_⟩
      simp [hid]
    refine List.mem_map.mpr ⟨{ aura with likes := aura.likes + 1 }, hm1, ?_⟩
    simp [hid]
  · intro hpos
    rw [unlikeAura_step u2 hfind]
    simp [hpos]

/-- Witness for claim C9 on a database with a single aura. -/
theorem likes_no_user_tracking_witness :
    likeAura "u1" "a1" sampleDbAura = likeAura "u2" "a1" sampleDbAura ∧
    unlikeAura "u1" "a1" sampleDbAura = unlikeAura "u2" "a1" sampleDbAura ∧
    (likeAura "u1" "a1" sampleDbAura).1 =
      .ok { message := "Aura liked successfully", liked := true,
            totalLikes := sampleAura.likes + 1 } ∧
    (likeAura "u1" "a1" (likeAura "u1" "a1" sampleDbAura).2).1 =
      .ok { message := "Aura liked successfully", liked := true,
            totalLikes := sampleAura.likes + 2 } ∧
    (∃ a ∈ (likeAura "u1" "a1" (likeAura "u1" "a1" sampleDbAura).2).2.auras,
      a.id = "a1" ∧ a.likes = sampleAura.likes + 2) ∧
    (0 < sampleAura.likes →
      (unlikeAura "u2" "a1" sampleDbAura).1 =
        .ok { message := "Aura unliked successfully", liked := false,
              totalLikes := sampleAura.likes - 1 }) :=
  likes_no_user_tracking "u1" "u2" "a1" sampleDbAura sampleAura
    (by simp [sampleDbAura, dbEmpty]) rfl (by simp [sampleDbAura, dbEmpty])

/-- Claim C8: in every reachable state, every aura has a nonnegative
likes counter: `likeAura` only increments, `unlikeAura` decrements by 1
only when the counter is positive, and no other operation decreases
it. -/
theorem aura_likes_nonneg {db : DB} (h : Reach db) : ∀ a ∈ db.auras, 0 ≤ a.likes :=
  (reach_inv h).auraLikes

/-- Witness for claim C8 along a concrete register, upload, like,
unlike operation sequence. -/
theorem aura_likes_nonneg_witness :
    ((unlikeAura "u2" "a1" (likeAura "u1" "a1"
        (uploadImage sampleCfg (some sampleFile) "u1" (.ok sampleAi) (.ok sampleCloud)
          "i1" "a1" 0 (register sampleRegister none "u1" dbEmpty).2).1.2).2).2.auras.all
      (fun a => decide (0 ≤ a.likes))) = true :=
  List.all_eq_true.mpr (fun a ha =>
    decide_eq_true
      (aura_likes_nonneg
        (Reach.stepUnlike "u2" "a1"
          (Reach.stepLike "u1" "a1"
            (Reach.stepUpload sampleCfg (some sampleFile) "u1" (.ok sampleAi) (.ok sampleCloud)
              "i1" "a1" 0
              (Reach.stepRegister sampleRegister none "u1" Reach.empty)))) a ha))

/-- Claim C7: in every reachable state no two users share a phone
number, no two follow rows share a `(followerId, followingId)` pair, and
no two auras reference the same image; enforcement lives in the
constraint-checking storage layer (`dbCreateUser`, `dbCreateFollow`,
`dbCreateAura`, embedding the `@unique` and `@@unique` declarations of
`schema.prisma`), not in service code. -/
theorem schema_unique_constraints {db : DB} (h : Reach db) :
    (db.users.map UserRow.phoneNumber).Nodup ∧
    (db.follows.map (fun f => (f.followerId, f.followingId))).Nodup ∧
    (db.auras.map AuraRow.imageId).Nodup :=
  ⟨(reach_inv h).userPhones, (reach_inv h).followPairs, (reach_inv h).auraImageIds⟩

/-- Witness for claim C7 along a concrete register, register, follow
operation sequence. -/
theorem schema_unique_constraints_witness :
    ((followUser "u1" "u2" 0 "f1" (register sampleRegister2 none "u2"
        (register sampleRegister none "u1" dbEmpty).2).2).2.users.map
      UserRow.phoneNumber).Nodup ∧
    ((followUser "u1" "u2" 0 "f1" (register sampleRegister2 none "u2"
        (register sampleRegister none "u1" dbEmpty).2).2).2.follows.map
      (fun f => (f.followerId, f.followingId))).Nodup ∧
    ((followUser "u1" "u2" 0 "f1" (register sampleRegister2 none "u2"
        (register sampleRegister none "u1" dbEmpty).2).2).2.auras.map
      AuraRow.imageId).Nodup :=
  schema_unique_constraints
    (Reach.stepFollow "u1" "u2" 0 "f1"
      (Reach.stepRegister sampleRegister2 none "u2"
        (Reach.stepRegister sampleRegister none "u1" Reach.empty)))

/-- Claim C6: `fetchImageAsBase64` makes at most 3 fetch attempts with a
fixed 2000 ms sleep between consecutive attempts, always terminates (it
is a total function), returns the base64 of the body of some successful
attempt, and an error means all 3 attempts were made and failed; the
sleep is constant, not an exponential backoff. -/
theorem fetchImageAsBase64_bounded_retry (outcomes : Nat → FetchOutcome) :
    (fetchImageAsBase64 outcomes).2.countP FetchEvent.isAttempt ≤ 3 ∧
    (∀ n, FetchEvent.sleep n ∈ (fetchImageAsBase64 outcomes).2 → n = 2000) ∧
    (fetchImageAsBase64 outcomes).2.countP FetchEvent.isSleep =
      (fetchImageAsBase64 outcomes).2.countP FetchEvent.isAttempt - 1 ∧
    (∀ s, (fetchImageAsBase64 outcomes).1 = .ok s →
      ∃ i, 1 ≤ i ∧ i ≤ 3 ∧ ∃ buf, outcomes i = .ok buf ∧ 100 ≤ buf.length ∧
        s = base64Encode buf) ∧
    (∀ e, (fetchImageAsBase64 outcomes).1 = .error e →
      (fetchImageAsBase64 outcomes).2.countP FetchEvent.isAttempt = 3 ∧
      ∀ i, 1 ≤ i → i ≤ 3 → fetchSuccess (outcomes i) = false) := by
  obtain ⟨h1, h2, h3, h4, h5, h6⟩ := fetchGo_fetchSpec outcomes 3 1
  refine ⟨h1, h4, h3, ?_, ?_⟩
  · intro s hs
    obtain ⟨i, hi1, hi2, rest⟩ := h5 s hs
    exact ⟨i, hi1, by omega, rest⟩
  · intro e he
    obtain ⟨hc, hall⟩ := h6 e he
    exact ⟨hc, fun i hi1 hi2 => hall i hi1 (by omega)⟩

/-- Witness for claim C6 on an always-failing outcome sequence. -/
theorem fetchImageAsBase64_bounded_retry_witness :
    (fetchImageAsBase64 sampleOutcomesFail).2.countP FetchEvent.isAttempt ≤ 3 ∧
    (∀ n, FetchEvent.sleep n ∈ (fetchImageAsBase64 sampleOutcomesFail).2 → n = 2000) ∧
    (fetchImageAsBase64 sampleOutcomesFail).2.countP FetchEvent.isSleep =
      (fetchImageAsBase64 sampleOutcomesFail).2.countP FetchEvent.isAttempt - 1 ∧
    (∀ s, (fetchImageAsBase64 sampleOutcomesFail).1 = .ok s →
      ∃ i, 1 ≤ i ∧ i ≤ 3 ∧ ∃ buf, sampleOutcomesFail i = .ok buf ∧ 100 ≤ buf.length ∧
        s = base64Encode buf) ∧
    (∀ e, (fetchImageAsBase64 sampleOutcomesFail).1 = .error e →
      (fetchImageAsBase64 sampleOutcomesFail).2.countP FetchEvent.isAttempt = 3 ∧
      ∀ i, 1 ≤ i → i ≤ 3 → fetchSuccess (sampleOutcomesFail i) = false) :=
  fetchImageAsBase64_bounded_retry sampleOutcomesFail

/-- Result and state of `verifyOtp` when no valid OTP matches. -/
theorem verifyOtp_result_none {phone code : String} {now : Int} {db : DB}
    (hf : db.otps.find? (otpValid phone code now) = none) :
    verifyOtp phone code now db = (.error (.unauthorized "Invalid or expired OTP"), db) := by
  unfold verifyOtp
  rw [hf]

/-- Result and OTP-store update of `verifyOtp` when a valid OTP
matches. -/
theorem verifyOtp_result_some {phone code : String} {now : Int} {db : DB} {otp : OtpRow}
    (hf : db.otps.find? (otpValid phone code now) = some otp) :
    (verifyOtp phone code now db).1.isOk = true ∧
    (verifyOtp phone code now db).2.otps =
      db.otps.map (fun r => if r.id == otp.id then { r with isUsed := true } else r) := by
  unfold verifyOtp
  rw [hf]
  dsimp only
  cases hfu : db.users.find? (fun u => u.phoneNumber == phone) with
  | none => exact ⟨rfl, rfl⟩
  | some u =>
    by_cases hpic : u.profilePictureUrl.isNone
    · simp only [hpic, if_true]
      constructor <;> trivial
    · simp only [hpic, if_false]
      constructor <;> trivial

/-- Counterexample to claim C2 as stated: with two unused, unexpired OTP
rows sharing the same phone number and code, a second `verifyOtp` call
with the same code succeeds instead of failing. -/
theorem verifyOtp_second_call_cex :
    (verifyOtp "+15550100" "123456" 5
        { dbEmpty with otps := [sampleOtpA, sampleOtpB] }).1.isOk = true ∧
    (verifyOtp "+15550100" "123456" 6
        (verifyOtp "+15550100" "123456" 5
          { dbEmpty with otps := [sampleOtpA, sampleOtpB] }).2).1.isOk = true := by
  decide

/-- Claim C2 (amended): `verifyOtp` succeeds iff an unused OTP row with
the given phone number and code and a strictly future `expiresAt`
exists; on failure the state is unchanged; on success the matched row is
marked used, and a second call with the same code fails provided the
matched row was the only unused row with that phone number and code;
rows issued by `sendOtp` are accepted only within 10 minutes of
issuance. -/
theorem verifyOtp_spec (phone code : String) (now : Int) (db : DB) :
    ((verifyOtp phone code now db).1.isOk = true ↔
      ∃ r ∈ db.otps, otpValid phone code now r = true) ∧
    ((∀ r ∈ db.otps, otpValid phone code now r = false) →
      (verifyOtp phone code now db).2 = db) ∧
    (∀ otp, db.otps.find? (otpValid phone code now) = some otp →
      (verifyOtp phone code now db).2.otps =
        db.otps.map (fun r => if r.id == otp.id then { r with isUsed := true } else r)) ∧
    (∀ otp, db.otps.find? (otpValid phone code now) = some otp →
      (∀ r ∈ db.otps, r.id ≠ otp.id →
        ¬(r.phoneNumber = phone ∧ r.code = code ∧ r.isUsed = false)) →
      ∀ now2, (verifyOtp phone code now2 (verifyOtp phone code now db).2).1 =
        .error (.unauthorized "Invalid or expired OTP")) ∧
    (∀ t0 freshId t, otpValid phone code t (sendOtpRow phone code t0 freshId) = true →
      t < t0 + 10 * 60 * 1000) := by
  refine ⟨?_, ?_, ?_, ?_, ?_⟩
  · cases hf : db.otps.find? (otpValid phone code now) with
    | none =>
      rw [verifyOtp_result_none hf]
      have hno := List.find?_eq_none.mp hf
      simp only [Except.isOk]
      constructor
      · intro h
        cases h
      · rintro ⟨r, hr, hv⟩
        exact absurd hv (hno r hr)
    | some otp =>
      rw [(verifyOtp_result_some hf).1]
      simp only [true_iff]
      exact ⟨otp, List.mem_of_find?_eq_some hf, List.find?_some hf⟩
  · intro hall
    have hf : db.otps.find? (otpValid phone code now) = none := by
      rw [List.find?_eq_none]
      intro r hr
      simp [hall r hr]
    rw [verifyOtp_result_none hf]
  · intro otp hf
    exact (verifyOtp_result_some hf).2
  · intro otp hf huniq now2
    have hst := (verifyOtp_result_some hf).2
    have hnone : (verifyOtp phone code now db).2.otps.find?
        (otpValid phone code now2) = none := by
      rw [List.find?_eq_none]
      intro x hx
      rw [hst] at hx
      obtain ⟨r, hr, rfl⟩ := List.mem_map.mp hx
      by_cases hrid : r.id == otp.id
      · simp [otpValid, hrid]
      · simp only [hrid, Bool.false_eq_true, if_false]
        intro hv
        simp only [otpValid, Bool.and_eq_true, beq_iff_eq, Bool.not_eq_eq_eq_not,
          Bool.not_true, decide_eq_true_eq] at hv
        exact huniq r hr (by simpa using hrid) ⟨hv.1.1.1, hv.1.1.2, hv.1.2⟩
    rw [show (verifyOtp phone code now2 (verifyOtp phone code now db).2) =
      (.error (.unauthorized "Invalid or expired OTP"), (verifyOtp phone code now db).2)
      from verifyOtp_result_none hnone]
  · intro t0 freshId t hv
    simp only [otpValid, sendOtpRow, Bool.and_eq_true, beq_iff_eq, Bool.not_eq_eq_eq_not,
      Bool.not_true, decide_eq_true_eq] at hv
    omega

/-- Witness for claim C2 with a single valid OTP row. -/
theorem verifyOtp_spec_witness :
    ((verifyOtp "+15550100" "123456" 5 { dbEmpty with otps := [sampleOtpA] }).1.isOk = true ↔
      ∃ r ∈ ({ dbEmpty with otps := [sampleOtpA] } : DB).otps,
        otpValid "+15550100" "123456" 5 r = true) ∧
    ((∀ r ∈ ({ dbEmpty with otps := [sampleOtpA] } : DB).otps,
        otpValid "+15550100" "123456" 5 r = false) →
      (verifyOtp "+15550100" "123456" 5 { dbEmpty with otps := [sampleOtpA] }).2 =
        { dbEmpty with otps := [sampleOtpA] }) ∧
    (∀ otp, ({ dbEmpty with otps := [sampleOtpA] } : DB).otps.find?
        (otpValid "+15550100" "123456" 5) = some otp →
      (verifyOtp "+15550100" "123456" 5 { dbEmpty with otps := [sampleOtpA] }).2.otps =
        ({ dbEmpty with otps := [sampleOtpA] } : DB).otps.map
          (fun r => if r.id == otp.id then { r with isUsed := true } else r)) ∧
    (∀ otp, ({ dbEmpty with otps := [sampleOtpA] } : DB).otps.find?
        (otpValid "+15550100" "123456" 5) = some otp →
      (∀ r ∈ ({ dbEmpty with otps := [sampleOtpA] } : DB).otps, r.id ≠ otp.id →
        ¬(r.phoneNumber = "+15550100" ∧ r.code = "123456" ∧ r.isUsed = false)) →
      ∀ now2, (verifyOtp "+15550100" "123456" now2
          (verifyOtp "+15550100" "123456" 5 { dbEmpty with otps := [sampleOtpA] }).2).1 =
        .error (.unauthorized "Invalid or expired OTP")) ∧
    (∀ t0 freshId t,
      otpValid "+15550100" "123456" t (sendOtpRow "+15550100" "123456" t0 freshId) = true →
      t < t0 + 10 * 60 * 1000) :=
  verifyOtp_spec "+15550100" "123456" 5 { dbEmpty with otps := [sampleOtpA] }

/-- Claim C1: after validation, `uploadImage` is the ordered sequence
Gemini analysis, Cloudinary upload, `image.create`, `aura.create`; when
the Gemini step throws, the whole operation fails with a
`BadRequestException`, no Cloudinary upload step runs, and the database
is unchanged (no Image or Aura row is written). -/
theorem uploadImage_pipeline_spec (cfg : UploadConfig) (f : UploadFile) (userId : String)
    (freshImageId freshAuraId : String) (now : Int) (db : DB)
    (hmime : cfg.allowedMimeTypes.contains f.mimetype = true)
    (hsize : f.size ≤ cfg.maxFileSize)
    (himg : ∀ i ∈ db.images, i.id ≠ freshImageId)
    (haid : ∀ a ∈ db.auras, a.id ≠ freshAuraId)
    (haimg : ∀ a ∈ db.auras, a.imageId ≠ freshImageId) :
    (∀ e cloud,
      uploadImage cfg (some f) userId (.error e) cloud freshImageId freshAuraId now db =
        ((.error (uploadCatch e), db), [UploadStep.geminiAnalyze])) ∧
    (∀ e, ∃ m, uploadCatch e = ApiError.badRequest m) ∧
    (∀ ai up,
      (uploadImage cfg (some f) userId (.ok ai) (.ok up) freshImageId freshAuraId now db).2 =
        [UploadStep.geminiAnalyze, UploadStep.cloudinaryUpload, UploadStep.createImageRow,
          UploadStep.createAuraRow] ∧
      (∃ resp, (uploadImage cfg (some f) userId (.ok ai) (.ok up) freshImageId freshAuraId
          now db).1.1 = .ok resp) ∧
      ∃ irow arow,
        (uploadImage cfg (some f) userId (.ok ai) (.ok up) freshImageId freshAuraId now db).1.2 =
          { db with images := db.images ++ [irow], auras := db.auras ++ [arow] } ∧
        irow.id = freshImageId ∧ arow.id = freshAuraId ∧ arow.imageId = freshImageId ∧
        arow.likes = 0) := by
  have hnotsize : ¬(cfg.maxFileSize < f.size) := by omega
  have hmem : f.mimetype ∈ cfg.allowedMimeTypes := by simpa using hmime
  have hc1 : ¬((!cfg.allowedMimeTypes.contains f.mimetype) = true) := by simp [hmem]
  refine ⟨?_, ?_, ?_⟩
  · intro e cloud
    unfold uploadImage
    dsimp only
    rw [if_neg hc1, if_neg hnotsize]
  · intro e
    unfold uploadCatch
    split
    · exact ⟨_, rfl⟩
    · exact ⟨_, rfl⟩
  · intro ai up
    have hgimg : db.images.any (fun v => v.id == freshImageId) = false := by
      rw [← Bool.not_eq_true, List.any_eq_true]
      rintro ⟨i, hi, hp⟩
      exact himg i hi (by simpa using hp)
    have hgaura : db.auras.any
        (fun v => v.id == freshAuraId || v.imageId == freshImageId) = false := by
      rw [← Bool.not_eq_true, List.any_eq_true]
      rintro ⟨a, ha, hp⟩
      simp only [Bool.or_eq_true, beq_iff_eq] at hp
      rcases hp with hp | hp
      · exact haid a ha hp
      · exact haimg a ha hp
    unfold uploadImage
    dsimp only
    rw [if_neg hc1, if_neg hnotsize]
    unfold dbCreateImage
    dsimp only
    rw [hgimg]
    simp only [Bool.false_eq_true, if_false]
    unfold dbCreateAura
    dsimp only
    rw [hgaura]
    simp only [Bool.false_eq_true, if_false]
    refine ⟨trivial, ⟨_, rfl⟩, _, _, rfl, rfl, rfl, rfl, rfl⟩

/-- Witness for claim C1 at a concrete configuration, file and empty
database. -/
theorem uploadImage_pipeline_spec_witness :
    (∀ e cloud,
      uploadImage sampleCfg (some sampleFile) "u1" (.error e) cloud "i1" "a1" 0 dbEmpty =
        ((.error (uploadCatch e), dbEmpty), [UploadStep.geminiAnalyze])) ∧
    (∀ e, ∃ m, uploadCatch e = ApiError.badRequest m) ∧
    (∀ ai up,
      (uploadImage sampleCfg (some sampleFile) "u1" (.ok ai) (.ok up) "i1" "a1" 0 dbEmpty).2 =
        [UploadStep.geminiAnalyze, UploadStep.cloudinaryUpload, UploadStep.createImageRow,
          UploadStep.createAuraRow] ∧
      (∃ resp, (uploadImage sampleCfg (some sampleFile) "u1" (.ok ai) (.ok up) "i1" "a1"
          0 dbEmpty).1.1 = .ok resp) ∧
      ∃ irow arow,
        (uploadImage sampleCfg (some sampleFile) "u1" (.ok ai) (.ok up) "i1" "a1" 0 dbEmpty).1.2 =
          { dbEmpty with images := dbEmpty.images ++ [irow], auras := dbEmpty.auras ++ [arow] } ∧
        irow.id = "i1" ∧ arow.id = "a1" ∧ arow.imageId = "i1" ∧ arow.likes = 0) :=
  uploadImage_pipeline_spec sampleCfg sampleFile "u1" "i1" "a1" 0 dbEmpty
    (by decide) (by decide)
    (by intro i hi; simp [dbEmpty] at hi)
    (by intro a ha; simp [dbEmpty] at ha)
    (by intro a ha; simp [dbEmpty] at ha)

/-- Claim C3: the ranking of `getLeaderboard` consists exactly of the
fetched users with at least one image; it is sorted by rounded total
confidence, then rounded average confidence, then total scans, all
descending; ranks are consecutive from 1; entries equal on all three
keys keep their relative order from the fetched list (the sort is
stable); and `topTen` is the first 10 entries of the ranking. -/
theorem getLeaderboard_ranking_spec (users : List LbUserFetched) :
    lbEntries users = (users.filter (fun u => decide (0 < u.images.length))).map toEntry ∧
    ((rankedUsers users).map Prod.snd).Perm (lbEntries users) ∧
    List.Pairwise lbKeyGE ((rankedUsers users).map Prod.snd) ∧
    (rankedUsers users).map Prod.fst =
      List.range' 1 ((lbEntries users).mergeSort lbLE).length ∧
    (∀ a b, lbSameKeys a b → [a, b].Sublist (lbEntries users) →
      [a, b].Sublist ((rankedUsers users).map Prod.snd)) ∧
    topTen users = (rankedUsers users).take 10 := by
  refine ⟨?_, ?_, ?_, ?_, ?_, rfl⟩
  · unfold lbEntries
    rw [List.filter_map]
    rfl
  · rw [rankedUsers_map_snd]
    exact List.mergeSort_perm _ lbLE
  · rw [rankedUsers_map_snd]
    exact List.Pairwise.imp (fun h => (lbLE_iff _ _).mp h)
      (List.sorted_mergeSort lbLE_trans lbLE_total (lbEntries users))
  · unfold rankedUsers
    rw [List.map_map]
    have h1 : (Prod.fst ∘ fun p : Nat × LbEntry => (p.1 + 1, p.2)) =
        ((fun i => i + 1) ∘ Prod.fst) := rfl
    rw [h1, ← List.map_map, List.enum_map_fst, List.range'_eq_map_range]
    exact List.map_congr_left (fun a _ => by omega)
  · intro a b hk hsub
    rw [rankedUsers_map_snd]
    exact List.pair_sublist_mergeSort lbLE_trans lbLE_total (lbLE_of_sameKeys hk) hsub

/-- Witness for claim C3 at a one-user fetched list. -/
theorem getLeaderboard_ranking_spec_witness :
    lbEntries [sampleLbUser] =
      ([sampleLbUser].filter (fun u => decide (0 < u.images.length))).map toEntry ∧
    ((rankedUsers [sampleLbUser]).map Prod.snd).Perm (lbEntries [sampleLbUser]) ∧
    List.Pairwise lbKeyGE ((rankedUsers [sampleLbUser]).map Prod.snd) ∧
    (rankedUsers [sampleLbUser]).map Prod.fst =
      List.range' 1 ((lbEntries [sampleLbUser]).mergeSort lbLE).length ∧
    (∀ a b, lbSameKeys a b → [a, b].Sublist (lbEntries [sampleLbUser]) →
      [a, b].Sublist ((rankedUsers [sampleLbUser]).map Prod.snd)) ∧
    topTen [sampleLbUser] = (rankedUsers [sampleLbUser]).take 10 :=
  getLeaderboard_ranking_spec [sampleLbUser]

end AuraApi
